import Mathlib

/-!
# eduOS: Global Descriptor Table and Task State Segment (arch/x86/kernel/gdt.c)

A shallow embedding of `arch/x86/kernel/gdt.c`.  The file is compiled either with
`CONFIG_X86_32` or with `CONFIG_X86_64`; the two preprocessed programs are embedded in the
namespaces `X86_32` and `X86_64`.  The descriptor encoder is shared by both and takes the
width `w` of `unsigned long` / `size_t` in bits (32, respectively 64).

Machine integers are natural numbers, reduced with `% 2 ^ w` wherever the C code converts or
wraps.  A write outside the bounds of the `gdt` array is undefined behaviour and is embedded
as `none`.
-/

namespace EduOS

/-! ## Constants and types of the headers -/

/-- Constants and link-time addresses used by `gdt.c` whose definitions live in headers
(`asm/gdt.h`, `asm/tss.h`, `eduos/tasks.h`) or in the linker script. -/
structure Config where
  GDT_ENTRIES : Nat
  KERNEL_STACK_SIZE : Nat
  /-- Value of `sizeof(tss_t)`. -/
  sizeof_tss_t : Nat
  GDT_FLAG_DATASEG : Nat
  GDT_FLAG_CODESEG : Nat
  GDT_FLAG_TSS : Nat
  GDT_FLAG_SEGMENT : Nat
  GDT_FLAG_RING0 : Nat
  GDT_FLAG_RING3 : Nat
  GDT_FLAG_PRESENT : Nat
  GDT_FLAG_4K_GRAN : Nat
  GDT_FLAG_32_BIT : Nat
  GDT_FLAG_64_BIT : Nat
  /-- Address `&gdt`. -/
  gdt_addr : Nat
  /-- Address `&task_state_segment`. -/
  task_state_segment_addr : Nat
  /-- Address `&boot_stack`. -/
  boot_stack_addr : Nat
deriving DecidableEq, Repr

/-- One entry of the table (`gdt_entry_t`), fields in declaration order:
`limit_low` (16 bits), `base_low` (16 bits), `base_middle`, `access`, `granularity`,
`base_high` (8 bits each). -/
structure gdt_entry_t where
  limit_low : Nat
  base_low : Nat
  base_middle : Nat
  access : Nat
  granularity : Nat
  base_high : Nat
deriving DecidableEq, Repr

/-- Modelled from the spec: `sizeof(gdt_entry_t)`; the declaration of `gdt_entry_t` is in
`asm/gdt.h`, the spec describes "the 8-byte entry". -/
def sizeof_gdt_entry_t : Nat := 8

/-- The table-descriptor pair (`gdt_ptr_t`): `limit` is the 16-bit limit of the table
register, `base` is a `size_t`. -/
structure gdt_ptr_t where
  limit : Nat
  base : Nat
deriving DecidableEq, Repr

/-- The part of `task_t` read by `gdt.c`: the pointer `stack`. -/
structure task_t where
  stack : Nat
deriving DecidableEq, Repr

/-- The globals of `gdt.c` (`gp`, `task_state_segment`, `gdt`) together with `current_task`;
`tss` is the `tss_t` of the selected mode. -/
structure State (tss : Type) where
  gp : gdt_ptr_t
  task_state_segment : tss
  gdt : List gdt_entry_t
  current_task : task_t

/-! ## Machine arithmetic -/

/-- Addition of two `w`-bit unsigned values. -/
def wadd (w a b : Nat) : Nat := (a + b) % 2 ^ w

/-- Subtraction of two `w`-bit unsigned values (wraps around below zero): the two's
complement of `b` plus `a`. -/
def wsub (w a b : Nat) : Nat := ((2 ^ w - b % 2 ^ w) + a % 2 ^ w) % 2 ^ w

/-- Multiplication of two `w`-bit unsigned values. -/
def wmul (w a b : Nat) : Nat := (a * b) % 2 ^ w

/-! ## The descriptor encoder -/

/-- Embeds `configure_gdt_entry(dest_entry, base, limit, access, gran)`.  The arguments are converted
to the parameter types (`unsigned long` of `w` bits, `unsigned char`); every value stored is
masked to the width of its field by the code itself. -/
def configure_gdt_entry (w : Nat) (dest_entry : gdt_entry_t)
    (base limit access gran : Nat) : gdt_entry_t :=
  let base := base % 2 ^ w
  let limit := limit % 2 ^ w
  let access := access % 2 ^ 8
  let gran := gran % 2 ^ 8
  /- Setup the descriptor base address -/
  let dest_entry := { dest_entry with base_low := base &&& 0xFFFF }
  let dest_entry := { dest_entry with base_middle := (base >>> 16) &&& 0xFF }
  let dest_entry := { dest_entry with base_high := (base >>> 24) &&& 0xFF }
  /- Setup the descriptor limits -/
  let dest_entry := { dest_entry with limit_low := limit &&& 0xFFFF }
  let dest_entry := { dest_entry with granularity := (limit >>> 16) &&& 0x0F }
  /- Finally, set up the granularity and access flags -/
  let dest_entry := { dest_entry with granularity := dest_entry.granularity ||| (gran &&& 0xF0) }
  let dest_entry := { dest_entry with access := access }
  dest_entry

/-- Embeds `gdt_set_gate(num, base, limit, access, gran)`, which is
`configure_gdt_entry(&gdt[num], ...)`.
An index outside the array is undefined behaviour (`none`). -/
def gdt_set_gate {tss : Type} (w : Nat) (st : State tss) (num : Int)
    (base limit access gran : Nat) : Option (State tss) :=
  if 0 ≤ num ∧ num < st.gdt.length then
    some { st with
      gdt := st.gdt.set num.toNat
        (configure_gdt_entry w (st.gdt.getD num.toNat ⟨0, 0, 0, 0, 0, 0⟩) base limit access gran) }
  else
    none

/-- Modelled from the spec: the external activation primitive `gdt_flush` (defined in
`entry.asm`); it loads the table register from `gp` and reloads the segment registers, and
writes none of `gp`, `gdt`, `task_state_segment`. -/
def gdt_flush {tss : Type} (st : State tss) : State tss := st

/-- Modelled from the spec: the base address read back from an entry by inverse bit
extraction, `base_low | base_middle << 16 | base_high << 24`. -/
def decode_base (e : gdt_entry_t) : Nat :=
  e.base_low ||| (e.base_middle <<< 16) ||| (e.base_high <<< 24)

/-- Modelled from the spec: the limit read back from an entry by inverse bit extraction,
`limit_low | (granularity & 0x0F) << 16`. -/
def decode_limit (e : gdt_entry_t) : Nat :=
  e.limit_low ||| ((e.granularity &&& 0x0F) <<< 16)

/-- Modelled from the spec: the table index a selector names.  Selector values are
`table_index × entry_size`, the low 3 bits being the requested-privilege and table-indicator
bits. -/
def selector_index (sel : Nat) : Nat := sel / sizeof_gdt_entry_t

/-- Modelled from the spec: the requested privilege level carried in the low two bits of a
selector. -/
def selector_rpl (sel : Nat) : Nat := sel % 4

/-! ## The program compiled with `CONFIG_X86_32` -/

namespace X86_32

/-- The fields of the 32-bit `tss_t` that `gdt.c` names; `other` holds the remaining fields
declared in `asm/tss.h`, in declaration order. -/
structure tss_t where
  esp0 : Nat
  ss0 : Nat
  eflags : Nat
  cs : Nat
  ss : Nat
  ds : Nat
  es : Nat
  fs : Nat
  gs : Nat
  other : List Nat
deriving DecidableEq, Repr

/-- Embeds `memset(&task_state_segment, 0x00, sizeof(tss_t))`: every field becomes zero. -/
def memset_zero (t : tss_t) : tss_t :=
  { esp0 := 0, ss0 := 0, eflags := 0, cs := 0, ss := 0, ds := 0, es := 0, fs := 0, gs := 0,
    other := List.replicate t.other.length 0 }

/-- Embeds `set_kernel_stack()` under `CONFIG_X86_32`. -/
def set_kernel_stack (cfg : Config) (st : State tss_t) : State tss_t :=
  let curr_task := st.current_task
  { st with task_state_segment := { st.task_state_segment with
      esp0 := wsub 32 (wadd 32 (curr_task.stack % 2 ^ 32) cfg.KERNEL_STACK_SIZE) 16 } }

/-- Embeds `get_kernel_stack()`: the returned value, paired with the (untouched) state. -/
def get_kernel_stack (cfg : Config) (st : State tss_t) : Nat × State tss_t :=
  let curr_task := st.current_task
  (wsub 32 (wadd 32 (curr_task.stack % 2 ^ 32) cfg.KERNEL_STACK_SIZE) 16, st)

/-- Embeds `gdt_install()` under `CONFIG_X86_32`.  The chained assignment
`ss = ds = es = fs = gs = 0x13` is evaluated from the right. -/
def gdt_install (cfg : Config) (st : State tss_t) : Option (State tss_t) := do
  let num : Int := 0
  let st := { st with task_state_segment := memset_zero st.task_state_segment }
  let gran_ds := (cfg.GDT_FLAG_32_BIT ||| cfg.GDT_FLAG_4K_GRAN) % 2 ^ 32
  let gran_cs := gran_ds
  let limit := 0xFFFFFFFF
  /- Setup the GDT pointer and limit -/
  let st := { st with gp := { st.gp with
      limit := wsub 32 (wmul 32 sizeof_gdt_entry_t cfg.GDT_ENTRIES) 1 % 2 ^ 16 } }
  let st := { st with gp := { st.gp with base := cfg.gdt_addr % 2 ^ 32 } }
  /- Our NULL descriptor -/
  let st ← gdt_set_gate 32 st num 0 0 0 0
  let num := num + 1
  /- The second entry is our Code Segment. -/
  let st ← gdt_set_gate 32 st num 0 limit
    (cfg.GDT_FLAG_RING0 ||| cfg.GDT_FLAG_SEGMENT ||| cfg.GDT_FLAG_CODESEG ||| cfg.GDT_FLAG_PRESENT)
    gran_cs
  let num := num + 1
  /- The third entry is our Data Segment. -/
  let st ← gdt_set_gate 32 st num 0 limit
    (cfg.GDT_FLAG_RING0 ||| cfg.GDT_FLAG_SEGMENT ||| cfg.GDT_FLAG_DATASEG ||| cfg.GDT_FLAG_PRESENT)
    gran_ds
  let num := num + 1
  /- Create code segment for 32bit user-space applications (ring 3) -/
  let st ← gdt_set_gate 32 st num 0 0xFFFFFFFF
    (cfg.GDT_FLAG_RING3 ||| cfg.GDT_FLAG_SEGMENT ||| cfg.GDT_FLAG_CODESEG ||| cfg.GDT_FLAG_PRESENT)
    (cfg.GDT_FLAG_32_BIT ||| cfg.GDT_FLAG_4K_GRAN)
  let num := num + 1
  /- Create data segment for user-space applications (ring 3) -/
  let st ← gdt_set_gate 32 st num 0 limit
    (cfg.GDT_FLAG_RING3 ||| cfg.GDT_FLAG_SEGMENT ||| cfg.GDT_FLAG_DATASEG ||| cfg.GDT_FLAG_PRESENT)
    gran_ds
  let num := num + 1
  /- set default values -/
  let st := { st with task_state_segment := { st.task_state_segment with eflags := 0x1202 } }
  let st := { st with task_state_segment := { st.task_state_segment with ss0 := 0x10 } }
  let st := { st with task_state_segment := { st.task_state_segment with
      esp0 := wsub 32 (cfg.boot_stack_addr % 2 ^ 32) 0x10 } }
  let st := { st with task_state_segment := { st.task_state_segment with cs := 0x0b } }
  let st := { st with task_state_segment := { st.task_state_segment with gs := 0x13 } }
  let st := { st with task_state_segment := { st.task_state_segment with
      fs := st.task_state_segment.gs } }
  let st := { st with task_state_segment := { st.task_state_segment with
      es := st.task_state_segment.fs } }
  let st := { st with task_state_segment := { st.task_state_segment with
      ds := st.task_state_segment.es } }
  let st := { st with task_state_segment := { st.task_state_segment with
      ss := st.task_state_segment.ds } }
  let st ← gdt_set_gate 32 st num (cfg.task_state_segment_addr % 2 ^ 32)
    (wsub 32 cfg.sizeof_tss_t 1)
    (cfg.GDT_FLAG_PRESENT ||| cfg.GDT_FLAG_TSS ||| cfg.GDT_FLAG_RING0) gran_ds
  let _num := num + 1
  /- Flush out the old GDT and install the new changes! -/
  some (gdt_flush st)

/-- Modelled from the spec: a run of task switches.  The scheduler (not part of `gdt.c`)
makes each task of `tasks` the current task in turn and calls `set_kernel_stack` after each
scheduling decision. -/
def task_switches (cfg : Config) (tasks : List task_t) (st : State tss_t) : State tss_t :=
  tasks.foldl (fun s t => set_kernel_stack cfg { s with current_task := t }) st

end X86_32

/-! ## The program compiled with `CONFIG_X86_64` -/

namespace X86_64

/-- The field of the 64-bit `tss_t` that `gdt.c` names; `other` holds the remaining fields
declared in `asm/tss.h`, in declaration order. -/
structure tss_t where
  rsp0 : Nat
  other : List Nat
deriving DecidableEq, Repr

/-- Embeds `memset(&task_state_segment, 0x00, sizeof(tss_t))`: every field becomes zero. -/
def memset_zero (t : tss_t) : tss_t :=
  { rsp0 := 0, other := List.replicate t.other.length 0 }

/-- Embeds `set_kernel_stack()` under `CONFIG_X86_64`. -/
def set_kernel_stack (cfg : Config) (st : State tss_t) : State tss_t :=
  let curr_task := st.current_task
  { st with task_state_segment := { st.task_state_segment with
      rsp0 := wsub 64 (wadd 64 (curr_task.stack % 2 ^ 64) cfg.KERNEL_STACK_SIZE) 16 } }

/-- Embeds `get_kernel_stack()`: the returned value, paired with the (untouched) state. -/
def get_kernel_stack (cfg : Config) (st : State tss_t) : Nat × State tss_t :=
  let curr_task := st.current_task
  (wsub 64 (wadd 64 (curr_task.stack % 2 ^ 64) cfg.KERNEL_STACK_SIZE) 16, st)

/-- Embeds `gdt_install()` under `CONFIG_X86_64`. -/
def gdt_install (cfg : Config) (st : State tss_t) : Option (State tss_t) := do
  let num : Int := 0
  let st := { st with task_state_segment := memset_zero st.task_state_segment }
  let gran_cs := cfg.GDT_FLAG_64_BIT % 2 ^ 64
  let gran_ds := 0
  let limit := 0
  /- Setup the GDT pointer and limit -/
  let st := { st with gp := { st.gp with
      limit := wsub 64 (wmul 64 sizeof_gdt_entry_t cfg.GDT_ENTRIES) 1 % 2 ^ 16 } }
  let st := { st with gp := { st.gp with base := cfg.gdt_addr % 2 ^ 64 } }
  /- Our NULL descriptor -/
  let st ← gdt_set_gate 64 st num 0 0 0 0
  let num := num + 1
  /- The second entry is our Code Segment. -/
  let st ← gdt_set_gate 64 st num 0 limit
    (cfg.GDT_FLAG_RING0 ||| cfg.GDT_FLAG_SEGMENT ||| cfg.GDT_FLAG_CODESEG ||| cfg.GDT_FLAG_PRESENT)
    gran_cs
  let num := num + 1
  /- The third entry is our Data Segment. -/
  let st ← gdt_set_gate 64 st num 0 limit
    (cfg.GDT_FLAG_RING0 ||| cfg.GDT_FLAG_SEGMENT ||| cfg.GDT_FLAG_DATASEG ||| cfg.GDT_FLAG_PRESENT)
    gran_ds
  let num := num + 1
  /- Create code segment for 32bit user-space applications (ring 3) -/
  let st ← gdt_set_gate 64 st num 0 0xFFFFFFFF
    (cfg.GDT_FLAG_RING3 ||| cfg.GDT_FLAG_SEGMENT ||| cfg.GDT_FLAG_CODESEG ||| cfg.GDT_FLAG_PRESENT)
    (cfg.GDT_FLAG_32_BIT ||| cfg.GDT_FLAG_4K_GRAN)
  let num := num + 1
  /- Create data segment for user-space applications (ring 3) -/
  let st ← gdt_set_gate 64 st num 0 limit
    (cfg.GDT_FLAG_RING3 ||| cfg.GDT_FLAG_SEGMENT ||| cfg.GDT_FLAG_DATASEG ||| cfg.GDT_FLAG_PRESENT)
    gran_ds
  let num := num + 1
  /- Create code segment for 64bit user-space applications (ring 3) -/
  let st ← gdt_set_gate 64 st num 0 limit
    (cfg.GDT_FLAG_RING3 ||| cfg.GDT_FLAG_SEGMENT ||| cfg.GDT_FLAG_CODESEG ||| cfg.GDT_FLAG_PRESENT)
    gran_cs
  let num := num + 1
  let st := { st with task_state_segment := { st.task_state_segment with
      rsp0 := wsub 64 (cfg.boot_stack_addr % 2 ^ 64) 0x10 } }
  let st ← gdt_set_gate 64 st num (cfg.task_state_segment_addr % 2 ^ 64)
    (wsub 64 cfg.sizeof_tss_t 1)
    (cfg.GDT_FLAG_PRESENT ||| cfg.GDT_FLAG_TSS ||| cfg.GDT_FLAG_RING0) gran_ds
  let _num := num + 1
  /- Flush out the old GDT and install the new changes! -/
  some (gdt_flush st)

/-- Modelled from the spec: a run of task switches.  The scheduler (not part of `gdt.c`)
makes each task of `tasks` the current task in turn and calls `set_kernel_stack` after each
scheduling decision. -/
def task_switches (cfg : Config) (tasks : List task_t) (st : State tss_t) : State tss_t :=
  tasks.foldl (fun s t => set_kernel_stack cfg { s with current_task := t }) st

end X86_64

/-! ## Sample inputs -/

/-- A sample configuration: the flag values of the x86 descriptor format, a table of 8
entries, a 104-byte `tss_t`, `KERNEL_STACK_SIZE = 0x4000`, and addresses in the first
megabytes. -/
def sample_config : Config :=
  { GDT_ENTRIES := 8
    KERNEL_STACK_SIZE := 0x4000
    sizeof_tss_t := 104
    GDT_FLAG_DATASEG := 0x02
    GDT_FLAG_CODESEG := 0x0a
    GDT_FLAG_TSS := 0x09
    GDT_FLAG_SEGMENT := 0x10
    GDT_FLAG_RING0 := 0x00
    GDT_FLAG_RING3 := 0x60
    GDT_FLAG_PRESENT := 0x80
    GDT_FLAG_4K_GRAN := 0x80
    GDT_FLAG_32_BIT := 0x40
    GDT_FLAG_64_BIT := 0x20
    gdt_addr := 0x109000
    task_state_segment_addr := 0x108000
    boot_stack_addr := 0x107000 }

/-- An entry with arbitrary non-zero content. -/
def stale_entry : gdt_entry_t := ⟨1, 2, 3, 4, 5, 6⟩

/-- The all-zero entry. -/
def null_entry : gdt_entry_t := ⟨0, 0, 0, 0, 0, 0⟩

/-- A 32-bit state with stale content everywhere; the current task's stack is at
`0x100000`. -/
def sample_state_32 : State X86_32.tss_t :=
  { gp := ⟨7, 7⟩
    task_state_segment := ⟨1, 2, 3, 4, 5, 6, 7, 8, 9, [10, 11, 12]⟩
    gdt := List.replicate 8 stale_entry
    current_task := ⟨0x100000⟩ }

/-- A 64-bit state with stale content everywhere; the current task's stack is at
`0x100000`. -/
def sample_state_64 : State X86_64.tss_t :=
  { gp := ⟨7, 7⟩
    task_state_segment := ⟨1, [10, 11, 12]⟩
    gdt := List.replicate 8 stale_entry
    current_task := ⟨0x100000⟩ }

/-- A 32-bit state whose current task has a stack base that is not a multiple of 16. -/
def misaligned_state_32 : State X86_32.tss_t :=
  { sample_state_32 with current_task := ⟨0x100001⟩ }

/-! ## Auxiliary facts -/

theorem and_mask16 (n : Nat) : n &&& 0xFFFF = n % 2 ^ 16 := by
  have := Nat.and_pow_two_sub_one_eq_mod n 16
  simpa using this

theorem and_mask8 (n : Nat) : n &&& 0xFF = n % 2 ^ 8 := by
  have := Nat.and_pow_two_sub_one_eq_mod n 8
  simpa using this

theorem and_mask4 (n : Nat) : n &&& 0x0F = n % 2 ^ 4 := by
  have := Nat.and_pow_two_sub_one_eq_mod n 4
  simpa using this

/-- Reassembling the three base fields gives the low 32 bits. -/
theorem base_fields_recombine (n : Nat) :
    (n &&& 0xFFFF) ||| (((n >>> 16) &&& 0xFF) <<< 16) ||| (((n >>> 24) &&& 0xFF) <<< 24)
      = n % 2 ^ 32 := by
  rw [and_mask16, and_mask8, and_mask8]
  apply Nat.eq_of_testBit_eq
  intro i
  simp only [Nat.testBit_or, Nat.testBit_shiftLeft, Nat.testBit_mod_two_pow,
    Nat.testBit_shiftRight]
  by_cases h1 : i < 16
  · have : ¬ (16 ≤ i) := by omega
    have : ¬ (24 ≤ i) := by omega
    have : i < 32 := by omega
    simp [*]
  · by_cases h2 : i < 24
    · have e : 16 + (i - 16) = i := by omega
      have : i - 16 < 8 := by omega
      have : 16 ≤ i := by omega
      have : ¬ (24 ≤ i) := by omega
      have : i < 32 := by omega
      simp [*]
    · by_cases h3 : i < 32
      · have e : 24 + (i - 24) = i := by omega
        have : i - 24 < 8 := by omega
        have : 16 ≤ i := by omega
        have : 24 ≤ i := by omega
        have : ¬ (i - 16 < 8) := by omega
        simp [*]
      · have : ¬ (i - 16 < 8) := by omega
        have : ¬ (i - 24 < 8) := by omega
        simp [*]

/-- The flag nibble of the granularity byte does not reach its low nibble. -/
theorem gran_low_nibble (a g : Nat) :
    ((a &&& 0x0F) ||| (g &&& 0xF0)) &&& 0x0F = a % 2 ^ 4 := by
  rw [and_mask4, and_mask4]
  apply Nat.eq_of_testBit_eq
  intro i
  simp only [Nat.testBit_or, Nat.testBit_and, Nat.testBit_mod_two_pow]
  by_cases h : i < 4
  · have h240 : Nat.testBit 240 i = false := by
      interval_cases i <;> decide
    simp [h, h240]
  · simp [h]

/-- Reassembling the two limit fields gives the low 20 bits. -/
theorem limit_fields_recombine (l g : Nat) :
    (l &&& 0xFFFF) ||| ((((l >>> 16) &&& 0x0F) ||| (g &&& 0xF0)) &&& 0x0F) <<< 16
      = l % 2 ^ 20 := by
  rw [gran_low_nibble, and_mask16]
  apply Nat.eq_of_testBit_eq
  intro i
  simp only [Nat.testBit_or, Nat.testBit_shiftLeft, Nat.testBit_mod_two_pow,
    Nat.testBit_shiftRight]
  by_cases h1 : i < 16
  · have : ¬ (16 ≤ i) := by omega
    have : i < 20 := by omega
    simp [*]
  · by_cases h2 : i < 20
    · have e : 16 + (i - 16) = i := by omega
      have : i - 16 < 4 := by omega
      have : 16 ≤ i := by omega
      simp [*]
    · have : ¬ (i - 16 < 4) := by omega
      simp [*]

theorem decode_base_configure (w : Nat) (e : gdt_entry_t) (base limit access gran : Nat) :
    decode_base (configure_gdt_entry w e base limit access gran) = base % 2 ^ w % 2 ^ 32 := by
  simp only [decode_base, configure_gdt_entry]
  exact base_fields_recombine _

theorem decode_limit_configure (w : Nat) (e : gdt_entry_t) (base limit access gran : Nat) :
    decode_limit (configure_gdt_entry w e base limit access gran) = limit % 2 ^ w % 2 ^ 20 := by
  simp only [decode_limit, configure_gdt_entry]
  exact limit_fields_recombine _ _

theorem mod_mod_pow_of_le (n : Nat) {a b : Nat} (h : a ≤ b) : n % 2 ^ b % 2 ^ a = n % 2 ^ a :=
  Nat.mod_mod_of_dvd n (Nat.pow_dvd_pow 2 h)

/-! ## Descriptor encoder: round trip -/

/-- C1: for every base, limit, access byte and granularity byte (and whatever the entry held
before), the entry written by `configure_gdt_entry` decodes to `base mod 2^32` and
`limit mod 2^20`, under both widths of `unsigned long`. -/
theorem configure_gdt_entry_roundtrip (e : gdt_entry_t) (base limit access gran : Nat) :
    (decode_base (configure_gdt_entry 32 e base limit access gran) = base % 2 ^ 32 ∧
     decode_limit (configure_gdt_entry 32 e base limit access gran) = limit % 2 ^ 20) ∧
    (decode_base (configure_gdt_entry 64 e base limit access gran) = base % 2 ^ 32 ∧
     decode_limit (configure_gdt_entry 64 e base limit access gran) = limit % 2 ^ 20) := by
  simp only [decode_base_configure, decode_limit_configure]
  refine ⟨⟨?_, ?_⟩, ?_, ?_⟩
  · exact mod_mod_pow_of_le base (by decide)
  · exact mod_mod_pow_of_le limit (by decide)
  · exact mod_mod_pow_of_le base (by decide)
  · exact mod_mod_pow_of_le limit (by decide)

/-! ## Kernel-stack accessor -/

theorem wsub_wadd_eq (w S K c : Nat) :
    wsub w (wadd w (S % 2 ^ w) K) c = (S + K + (2 ^ w - c % 2 ^ w)) % 2 ^ w := by
  unfold wsub wadd
  rw [Nat.mod_mod, Nat.add_comm]
  calc ((S % 2 ^ w + K) % 2 ^ w + (2 ^ w - c % 2 ^ w)) % 2 ^ w
      = ((S % 2 ^ w + K) + (2 ^ w - c % 2 ^ w)) % 2 ^ w := Nat.mod_add_mod _ _ _
    _ = (S % 2 ^ w + (K + (2 ^ w - c % 2 ^ w))) % 2 ^ w := by rw [Nat.add_assoc]
    _ = (S + (K + (2 ^ w - c % 2 ^ w))) % 2 ^ w := Nat.mod_add_mod _ _ _
    _ = (S + K + (2 ^ w - c % 2 ^ w)) % 2 ^ w := by rw [Nat.add_assoc]

theorem wsub_wadd_int (w S K c : Nat) :
    ((wsub w (wadd w (S % 2 ^ w) K) c : Nat) : Int) = ((S : Int) + K - c) % 2 ^ w := by
  have hpos : 0 < 2 ^ w := by positivity
  have hc : c % 2 ^ w < 2 ^ w := Nat.mod_lt _ hpos
  rw [wsub_wadd_eq]
  have h1 : ((S + K + (2 ^ w - c % 2 ^ w) : Nat) : Int)
      = (S : Int) + K - ((c : Int) % 2 ^ w) + 2 ^ w := by
    rw [Nat.cast_add, Nat.cast_sub hc.le]; push_cast; ring
  rw [Int.natCast_mod, h1]
  push_cast
  rw [Int.add_emod_self, Int.sub_emod _ ((c : Int) % 2 ^ w), Int.emod_emod, ← Int.sub_emod]

theorem wsub_wadd_mod16 (w S K : Nat) (hw : 4 ≤ w) :
    wsub w (wadd w (S % 2 ^ w) K) 16 % 16 = (S + K) % 16 := by
  have hpos : 0 < 2 ^ w := by positivity
  have hdvd : 16 ∣ 2 ^ w := by
    have : (16 : Nat) = 2 ^ 4 := by norm_num
    rw [this]; exact Nat.pow_dvd_pow 2 hw
  have hc : 16 % 2 ^ w < 2 ^ w := Nat.mod_lt _ hpos
  have h16 : 16 ∣ 16 % 2 ^ w := (Nat.dvd_mod_iff hdvd).2 (dvd_refl 16)
  rw [wsub_wadd_eq, Nat.mod_mod_of_dvd _ hdvd]
  obtain ⟨a, ha⟩ := hdvd
  obtain ⟨b, hb⟩ := h16
  rw [ha, hb] at *
  omega

/-- C2: `set_kernel_stack` stores exactly `S + K − 16`, computed in 32-bit (`esp0`) respectively
64-bit (`rsp0`) machine arithmetic, where `S` is the current task's stack base and `K` is
`KERNEL_STACK_SIZE`; for `S = 0x100000` and `K = 0x4000` the stored value is `0x103FF0`. -/
theorem set_kernel_stack_writes_top (cfg : Config) :
    (∀ st : State X86_32.tss_t,
      ((X86_32.set_kernel_stack cfg st).task_state_segment.esp0 : Int)
        = ((st.current_task.stack : Int) + cfg.KERNEL_STACK_SIZE - 16) % 2 ^ 32 ∧
      (X86_32.set_kernel_stack { cfg with KERNEL_STACK_SIZE := 0x4000 }
        { st with current_task := ⟨0x100000⟩ }).task_state_segment.esp0 = 0x103FF0) ∧
    (∀ st : State X86_64.tss_t,
      ((X86_64.set_kernel_stack cfg st).task_state_segment.rsp0 : Int)
        = ((st.current_task.stack : Int) + cfg.KERNEL_STACK_SIZE - 16) % 2 ^ 64 ∧
      (X86_64.set_kernel_stack { cfg with KERNEL_STACK_SIZE := 0x4000 }
        { st with current_task := ⟨0x100000⟩ }).task_state_segment.rsp0 = 0x103FF0) := by
  refine ⟨fun st => ⟨?_, ?_⟩, fun st => ⟨?_, ?_⟩⟩
  · exact wsub_wadd_int 32 _ _ 16
  · simp only [X86_32.set_kernel_stack, wsub_wadd_eq]
    norm_num
  · exact wsub_wadd_int 64 _ _ 16
  · simp only [X86_64.set_kernel_stack, wsub_wadd_eq]
    norm_num

/-- C3 (as stated, refuted): with the current task's stack base at `0x100001` and
`KERNEL_STACK_SIZE = 0x4000`, `set_kernel_stack` stores `0x103FF1`, which is not a multiple
of 16. -/
theorem set_kernel_stack_unaligned_counterexample :
    (X86_32.set_kernel_stack sample_config misaligned_state_32).task_state_segment.esp0
        = 0x103FF1 ∧
    ¬ 16 ∣ (X86_32.set_kernel_stack sample_config misaligned_state_32).task_state_segment.esp0 := by
  have h : (X86_32.set_kernel_stack sample_config misaligned_state_32).task_state_segment.esp0
      = 0x103FF1 := by
    simp only [X86_32.set_kernel_stack, wsub_wadd_eq]
    decide
  rw [h]
  exact ⟨rfl, by decide⟩

/-- C3 (amended): whenever `S + K` is a multiple of 16 — `S` the current task's stack base,
`K` `KERNEL_STACK_SIZE` — the value `set_kernel_stack` stores in `esp0` (32-bit mode) or
`rsp0` (64-bit mode) is a multiple of 16. -/
theorem set_kernel_stack_aligned (cfg : Config) (S : Nat)
    (h : 16 ∣ S + cfg.KERNEL_STACK_SIZE) :
    (∀ st : State X86_32.tss_t, st.current_task.stack = S →
      16 ∣ (X86_32.set_kernel_stack cfg st).task_state_segment.esp0) ∧
    (∀ st : State X86_64.tss_t, st.current_task.stack = S →
      16 ∣ (X86_64.set_kernel_stack cfg st).task_state_segment.rsp0) := by
  refine ⟨fun st hS => ?_, fun st hS => ?_⟩
  · apply Nat.dvd_of_mod_eq_zero
    simp only [X86_32.set_kernel_stack]
    rw [wsub_wadd_mod16 32 _ _ (by decide), hS]
    exact Nat.mod_eq_zero_of_dvd h
  · apply Nat.dvd_of_mod_eq_zero
    simp only [X86_64.set_kernel_stack]
    rw [wsub_wadd_mod16 64 _ _ (by decide), hS]
    exact Nat.mod_eq_zero_of_dvd h

/-- C3 witness (amended claim) at the sample configuration and states. -/
theorem set_kernel_stack_aligned_witness :
    16 ∣ 0x100000 + sample_config.KERNEL_STACK_SIZE ∧
    16 ∣ (X86_32.set_kernel_stack sample_config sample_state_32).task_state_segment.esp0 ∧
    16 ∣ (X86_64.set_kernel_stack sample_config sample_state_64).task_state_segment.rsp0 :=
  ⟨by decide,
   (set_kernel_stack_aligned sample_config 0x100000 (by decide)).1 sample_state_32 rfl,
   (set_kernel_stack_aligned sample_config 0x100000 (by decide)).2 sample_state_64 rfl⟩

/-- C4: `get_kernel_stack` returns the value that `set_kernel_stack` stores in the
privilege-0 stack-pointer field for the same current task — whether it is called before or
right after `set_kernel_stack` — and leaves the whole state (Task State Block, table,
table-descriptor pair) as it found it. -/
theorem get_kernel_stack_eq_set (cfg : Config) :
    (∀ st : State X86_32.tss_t,
      (X86_32.get_kernel_stack cfg st).1
          = (X86_32.set_kernel_stack cfg st).task_state_segment.esp0 ∧
      (X86_32.get_kernel_stack cfg (X86_32.set_kernel_stack cfg st)).1
          = (X86_32.set_kernel_stack cfg st).task_state_segment.esp0 ∧
      (X86_32.get_kernel_stack cfg st).2 = st) ∧
    (∀ st : State X86_64.tss_t,
      (X86_64.get_kernel_stack cfg st).1
          = (X86_64.set_kernel_stack cfg st).task_state_segment.rsp0 ∧
      (X86_64.get_kernel_stack cfg (X86_64.set_kernel_stack cfg st)).1
          = (X86_64.set_kernel_stack cfg st).task_state_segment.rsp0 ∧
      (X86_64.get_kernel_stack cfg st).2 = st) := by
  exact ⟨fun _ => ⟨rfl, rfl, rfl⟩, fun _ => ⟨rfl, rfl, rfl⟩⟩

/-! ## Table installer: closed form -/

theorem configure_gdt_entry_dest (w : Nat) (e e' : gdt_entry_t) (base limit access gran : Nat) :
    configure_gdt_entry w e base limit access gran
      = configure_gdt_entry w e' base limit access gran := rfl

theorem configure_gdt_entry_gran_mod (w k : Nat) (hk : 8 ≤ k) (e : gdt_entry_t)
    (base limit access gran : Nat) :
    configure_gdt_entry w e base limit access (gran % 2 ^ k)
      = configure_gdt_entry w e base limit access gran := by
  simp only [configure_gdt_entry, mod_mod_pow_of_le gran hk]

theorem gdt_set_gate_of_lt {tss : Type} (w : Nat) (st : State tss) (num : Int) (n : Nat)
    (hn : num = (n : Int)) (h : n < st.gdt.length) (base limit access gran : Nat)
    (e : gdt_entry_t) :
    gdt_set_gate w st num base limit access gran
      = some { st with gdt := st.gdt.set n (configure_gdt_entry w e base limit access gran) } := by
  subst hn
  have h' : ((n : Int) < (st.gdt.length : Int)) := by exact_mod_cast h
  simp only [gdt_set_gate, h', Int.natCast_nonneg, and_self, if_true, Int.toNat_ofNat]
  rw [configure_gdt_entry_dest w _ e]

theorem gdt_set_gate_mk {tss : Type} (w : Nat) (gp : gdt_ptr_t) (t : tss)
    (gdt : List gdt_entry_t) (cur : task_t) (num : Int) (n : Nat)
    (hn : num = (n : Int)) (h : n < gdt.length) (base limit access gran : Nat)
    (e : gdt_entry_t) :
    gdt_set_gate w ⟨gp, t, gdt, cur⟩ num base limit access gran
      = some ⟨gp, t, gdt.set n (configure_gdt_entry w e base limit access gran), cur⟩ :=
  gdt_set_gate_of_lt w ⟨gp, t, gdt, cur⟩ num n hn h base limit access gran e

/-- The 32-bit installer as a chain of six `gdt_set_gate` calls. -/
theorem gdt_install_staged_32 (cfg : Config) (st : State X86_32.tss_t) :
    X86_32.gdt_install cfg st =
    (gdt_set_gate 32
      ⟨⟨wsub 32 (wmul 32 sizeof_gdt_entry_t cfg.GDT_ENTRIES) 1 % 2 ^ 16, cfg.gdt_addr % 2 ^ 32⟩,
        X86_32.memset_zero st.task_state_segment, st.gdt, st.current_task⟩
      0 0 0 0 0).bind fun s1 =>
    (gdt_set_gate 32 s1 1 0 0xFFFFFFFF
      (cfg.GDT_FLAG_RING0 ||| cfg.GDT_FLAG_SEGMENT ||| cfg.GDT_FLAG_CODESEG
        ||| cfg.GDT_FLAG_PRESENT)
      ((cfg.GDT_FLAG_32_BIT ||| cfg.GDT_FLAG_4K_GRAN) % 2 ^ 32)).bind fun s2 =>
    (gdt_set_gate 32 s2 2 0 0xFFFFFFFF
      (cfg.GDT_FLAG_RING0 ||| cfg.GDT_FLAG_SEGMENT ||| cfg.GDT_FLAG_DATASEG
        ||| cfg.GDT_FLAG_PRESENT)
      ((cfg.GDT_FLAG_32_BIT ||| cfg.GDT_FLAG_4K_GRAN) % 2 ^ 32)).bind fun s3 =>
    (gdt_set_gate 32 s3 3 0 0xFFFFFFFF
      (cfg.GDT_FLAG_RING3 ||| cfg.GDT_FLAG_SEGMENT ||| cfg.GDT_FLAG_CODESEG
        ||| cfg.GDT_FLAG_PRESENT)
      (cfg.GDT_FLAG_32_BIT ||| cfg.GDT_FLAG_4K_GRAN)).bind fun s4 =>
    (gdt_set_gate 32 s4 4 0 0xFFFFFFFF
      (cfg.GDT_FLAG_RING3 ||| cfg.GDT_FLAG_SEGMENT ||| cfg.GDT_FLAG_DATASEG
        ||| cfg.GDT_FLAG_PRESENT)
      ((cfg.GDT_FLAG_32_BIT ||| cfg.GDT_FLAG_4K_GRAN) % 2 ^ 32)).bind fun s5 =>
    (gdt_set_gate 32
      ⟨s5.gp,
        ⟨wsub 32 (cfg.boot_stack_addr % 2 ^ 32) 0x10, 0x10, 0x1202, 0x0b, 0x13, 0x13, 0x13,
          0x13, 0x13, s5.task_state_segment.other⟩,
        s5.gdt, s5.current_task⟩
      5 (cfg.task_state_segment_addr % 2 ^ 32) (wsub 32 cfg.sizeof_tss_t 1)
      (cfg.GDT_FLAG_PRESENT ||| cfg.GDT_FLAG_TSS ||| cfg.GDT_FLAG_RING0)
      ((cfg.GDT_FLAG_32_BIT ||| cfg.GDT_FLAG_4K_GRAN) % 2 ^ 32)).bind fun s6 =>
    some s6 := rfl

/-- The state the 32-bit installer ends in, whenever the table has room for six entries. -/
theorem gdt_install_eq_32 (cfg : Config) (st : State X86_32.tss_t)
    (h : 6 ≤ st.gdt.length) (e : gdt_entry_t) :
    X86_32.gdt_install cfg st = some
      { gp := ⟨wsub 32 (wmul 32 sizeof_gdt_entry_t cfg.GDT_ENTRIES) 1 % 2 ^ 16,
               cfg.gdt_addr % 2 ^ 32⟩
        task_state_segment :=
          ⟨wsub 32 (cfg.boot_stack_addr % 2 ^ 32) 0x10, 0x10, 0x1202, 0x0b, 0x13, 0x13, 0x13,
           0x13, 0x13, List.replicate st.task_state_segment.other.length 0⟩
        gdt := (((((st.gdt.set 0 (configure_gdt_entry 32 e 0 0 0 0)).set 1
            (configure_gdt_entry 32 e 0 0xFFFFFFFF
              (cfg.GDT_FLAG_RING0 ||| cfg.GDT_FLAG_SEGMENT ||| cfg.GDT_FLAG_CODESEG
                ||| cfg.GDT_FLAG_PRESENT)
              (cfg.GDT_FLAG_32_BIT ||| cfg.GDT_FLAG_4K_GRAN))).set 2
            (configure_gdt_entry 32 e 0 0xFFFFFFFF
              (cfg.GDT_FLAG_RING0 ||| cfg.GDT_FLAG_SEGMENT ||| cfg.GDT_FLAG_DATASEG
                ||| cfg.GDT_FLAG_PRESENT)
              (cfg.GDT_FLAG_32_BIT ||| cfg.GDT_FLAG_4K_GRAN))).set 3
            (configure_gdt_entry 32 e 0 0xFFFFFFFF
              (cfg.GDT_FLAG_RING3 ||| cfg.GDT_FLAG_SEGMENT ||| cfg.GDT_FLAG_CODESEG
                ||| cfg.GDT_FLAG_PRESENT)
              (cfg.GDT_FLAG_32_BIT ||| cfg.GDT_FLAG_4K_GRAN))).set 4
            (configure_gdt_entry 32 e 0 0xFFFFFFFF
              (cfg.GDT_FLAG_RING3 ||| cfg.GDT_FLAG_SEGMENT ||| cfg.GDT_FLAG_DATASEG
                ||| cfg.GDT_FLAG_PRESENT)
              (cfg.GDT_FLAG_32_BIT ||| cfg.GDT_FLAG_4K_GRAN))).set 5
            (configure_gdt_entry 32 e (cfg.task_state_segment_addr % 2 ^ 32)
              (wsub 32 cfg.sizeof_tss_t 1)
              (cfg.GDT_FLAG_PRESENT ||| cfg.GDT_FLAG_TSS ||| cfg.GDT_FLAG_RING0)
              (cfg.GDT_FLAG_32_BIT ||| cfg.GDT_FLAG_4K_GRAN))
        current_task := st.current_task } := by
  rw [gdt_install_staged_32]
  rw [gdt_set_gate_mk 32 _ _ _ _ 0 0 rfl (by omega) _ _ _ _ e]
  simp only [Option.some_bind]
  rw [gdt_set_gate_mk 32 _ _ _ _ 1 1 rfl (by simp only [List.length_set]; omega) _ _ _ _ e]
  simp only [Option.some_bind]
  rw [gdt_set_gate_mk 32 _ _ _ _ 2 2 rfl (by simp only [List.length_set]; omega) _ _ _ _ e]
  simp only [Option.some_bind]
  rw [gdt_set_gate_mk 32 _ _ _ _ 3 3 rfl (by simp only [List.length_set]; omega) _ _ _ _ e]
  simp only [Option.some_bind]
  rw [gdt_set_gate_mk 32 _ _ _ _ 4 4 rfl (by simp only [List.length_set]; omega) _ _ _ _ e]
  simp only [Option.some_bind]
  rw [gdt_set_gate_mk 32 _ _ _ _ 5 5 rfl (by simp only [List.length_set]; omega) _ _ _ _ e]
  simp only [Option.some_bind, X86_32.memset_zero,
    configure_gdt_entry_gran_mod 32 32 (by decide)]

/-- The 64-bit installer as a chain of seven `gdt_set_gate` calls. -/
theorem gdt_install_staged_64 (cfg : Config) (st : State X86_64.tss_t) :
    X86_64.gdt_install cfg st =
    (gdt_set_gate 64
      ⟨⟨wsub 64 (wmul 64 sizeof_gdt_entry_t cfg.GDT_ENTRIES) 1 % 2 ^ 16, cfg.gdt_addr % 2 ^ 64⟩,
        X86_64.memset_zero st.task_state_segment, st.gdt, st.current_task⟩
      0 0 0 0 0).bind fun s1 =>
    (gdt_set_gate 64 s1 1 0 0
      (cfg.GDT_FLAG_RING0 ||| cfg.GDT_FLAG_SEGMENT ||| cfg.GDT_FLAG_CODESEG
        ||| cfg.GDT_FLAG_PRESENT)
      (cfg.GDT_FLAG_64_BIT % 2 ^ 64)).bind fun s2 =>
    (gdt_set_gate 64 s2 2 0 0
      (cfg.GDT_FLAG_RING0 ||| cfg.GDT_FLAG_SEGMENT ||| cfg.GDT_FLAG_DATASEG
        ||| cfg.GDT_FLAG_PRESENT)
      0).bind fun s3 =>
    (gdt_set_gate 64 s3 3 0 0xFFFFFFFF
      (cfg.GDT_FLAG_RING3 ||| cfg.GDT_FLAG_SEGMENT ||| cfg.GDT_FLAG_CODESEG
        ||| cfg.GDT_FLAG_PRESENT)
      (cfg.GDT_FLAG_32_BIT ||| cfg.GDT_FLAG_4K_GRAN)).bind fun s4 =>
    (gdt_set_gate 64 s4 4 0 0
      (cfg.GDT_FLAG_RING3 ||| cfg.GDT_FLAG_SEGMENT ||| cfg.GDT_FLAG_DATASEG
        ||| cfg.GDT_FLAG_PRESENT)
      0).bind fun s5 =>
    (gdt_set_gate 64 s5 5 0 0
      (cfg.GDT_FLAG_RING3 ||| cfg.GDT_FLAG_SEGMENT ||| cfg.GDT_FLAG_CODESEG
        ||| cfg.GDT_FLAG_PRESENT)
      (cfg.GDT_FLAG_64_BIT % 2 ^ 64)).bind fun s6 =>
    (gdt_set_gate 64
      ⟨s6.gp, ⟨wsub 64 (cfg.boot_stack_addr % 2 ^ 64) 0x10, s6.task_state_segment.other⟩,
        s6.gdt, s6.current_task⟩
      6 (cfg.task_state_segment_addr % 2 ^ 64) (wsub 64 cfg.sizeof_tss_t 1)
      (cfg.GDT_FLAG_PRESENT ||| cfg.GDT_FLAG_TSS ||| cfg.GDT_FLAG_RING0) 0).bind fun s7 =>
    some s7 := rfl

/-- The state the 64-bit installer ends in, whenever the table has room for seven entries. -/
theorem gdt_install_eq_64 (cfg : Config) (st : State X86_64.tss_t)
    (h : 7 ≤ st.gdt.length) (e : gdt_entry_t) :
    X86_64.gdt_install cfg st = some
      { gp := ⟨wsub 64 (wmul 64 sizeof_gdt_entry_t cfg.GDT_ENTRIES) 1 % 2 ^ 16,
               cfg.gdt_addr % 2 ^ 64⟩
        task_state_segment :=
          ⟨wsub 64 (cfg.boot_stack_addr % 2 ^ 64) 0x10,
           List.replicate st.task_state_segment.other.length 0⟩
        gdt := ((((((st.gdt.set 0 (configure_gdt_entry 64 e 0 0 0 0)).set 1
            (configure_gdt_entry 64 e 0 0
              (cfg.GDT_FLAG_RING0 ||| cfg.GDT_FLAG_SEGMENT ||| cfg.GDT_FLAG_CODESEG
                ||| cfg.GDT_FLAG_PRESENT)
              cfg.GDT_FLAG_64_BIT)).set 2
            (configure_gdt_entry 64 e 0 0
              (cfg.GDT_FLAG_RING0 ||| cfg.GDT_FLAG_SEGMENT ||| cfg.GDT_FLAG_DATASEG
                ||| cfg.GDT_FLAG_PRESENT)
              0)).set 3
            (configure_gdt_entry 64 e 0 0xFFFFFFFF
              (cfg.GDT_FLAG_RING3 ||| cfg.GDT_FLAG_SEGMENT ||| cfg.GDT_FLAG_CODESEG
                ||| cfg.GDT_FLAG_PRESENT)
              (cfg.GDT_FLAG_32_BIT ||| cfg.GDT_FLAG_4K_GRAN))).set 4
            (configure_gdt_entry 64 e 0 0
              (cfg.GDT_FLAG_RING3 ||| cfg.GDT_FLAG_SEGMENT ||| cfg.GDT_FLAG_DATASEG
                ||| cfg.GDT_FLAG_PRESENT)
              0)).set 5
            (configure_gdt_entry 64 e 0 0
              (cfg.GDT_FLAG_RING3 ||| cfg.GDT_FLAG_SEGMENT ||| cfg.GDT_FLAG_CODESEG
                ||| cfg.GDT_FLAG_PRESENT)
              cfg.GDT_FLAG_64_BIT)).set 6
            (configure_gdt_entry 64 e (cfg.task_state_segment_addr % 2 ^ 64)
              (wsub 64 cfg.sizeof_tss_t 1)
              (cfg.GDT_FLAG_PRESENT ||| cfg.GDT_FLAG_TSS ||| cfg.GDT_FLAG_RING0)
              0)
        current_task := st.current_task } := by
  rw [gdt_install_staged_64]
  rw [gdt_set_gate_mk 64 _ _ _ _ 0 0 rfl (by omega) _ _ _ _ e]
  simp only [Option.some_bind]
  rw [gdt_set_gate_mk 64 _ _ _ _ 1 1 rfl (by simp only [List.length_set]; omega) _ _ _ _ e]
  simp only [Option.some_bind]
  rw [gdt_set_gate_mk 64 _ _ _ _ 2 2 rfl (by simp only [List.length_set]; omega) _ _ _ _ e]
  simp only [Option.some_bind]
  rw [gdt_set_gate_mk 64 _ _ _ _ 3 3 rfl (by simp only [List.length_set]; omega) _ _ _ _ e]
  simp only [Option.some_bind]
  rw [gdt_set_gate_mk 64 _ _ _ _ 4 4 rfl (by simp only [List.length_set]; omega) _ _ _ _ e]
  simp only [Option.some_bind]
  rw [gdt_set_gate_mk 64 _ _ _ _ 5 5 rfl (by simp only [List.length_set]; omega) _ _ _ _ e]
  simp only [Option.some_bind]
  rw [gdt_set_gate_mk 64 _ _ _ _ 6 6 rfl (by simp only [List.length_set]; omega) _ _ _ _ e]
  simp only [Option.some_bind, X86_64.memset_zero,
    configure_gdt_entry_gran_mod 64 64 (by decide)]

/-! ## Table installer: the installed layout -/

/-- C5: after `gdt_install` — from any prior state whose table has room for the entries —
slots 1 to 4 (and slot 5 in 64-bit mode) hold what `configure_gdt_entry` produces for:
ring-0 code, ring-0 data, ring-3 32-bit code (limit argument `0xFFFFFFFF`, granularity
`32_BIT|4K_GRAN`), ring-3 data, and in 64-bit mode ring-3 64-bit code; base is 0 throughout;
in 32-bit mode slots 1, 2, 4 use limit `0xFFFFFFFF` and granularity `32_BIT|4K_GRAN`, in
64-bit mode they use limit 0 with code granularity `64_BIT` and data granularity 0. -/
theorem gdt_install_segment_descriptors (cfg : Config) (e : gdt_entry_t) :
    (∀ st : State X86_32.tss_t, 6 ≤ st.gdt.length →
      ∃ st', X86_32.gdt_install cfg st = some st' ∧
        st'.gdt[1]? = some (configure_gdt_entry 32 e 0 0xFFFFFFFF
          (cfg.GDT_FLAG_RING0 ||| cfg.GDT_FLAG_SEGMENT ||| cfg.GDT_FLAG_CODESEG
            ||| cfg.GDT_FLAG_PRESENT)
          (cfg.GDT_FLAG_32_BIT ||| cfg.GDT_FLAG_4K_GRAN)) ∧
        st'.gdt[2]? = some (configure_gdt_entry 32 e 0 0xFFFFFFFF
          (cfg.GDT_FLAG_RING0 ||| cfg.GDT_FLAG_SEGMENT ||| cfg.GDT_FLAG_DATASEG
            ||| cfg.GDT_FLAG_PRESENT)
          (cfg.GDT_FLAG_32_BIT ||| cfg.GDT_FLAG_4K_GRAN)) ∧
        st'.gdt[3]? = some (configure_gdt_entry 32 e 0 0xFFFFFFFF
          (cfg.GDT_FLAG_RING3 ||| cfg.GDT_FLAG_SEGMENT ||| cfg.GDT_FLAG_CODESEG
            ||| cfg.GDT_FLAG_PRESENT)
          (cfg.GDT_FLAG_32_BIT ||| cfg.GDT_FLAG_4K_GRAN)) ∧
        st'.gdt[4]? = some (configure_gdt_entry 32 e 0 0xFFFFFFFF
          (cfg.GDT_FLAG_RING3 ||| cfg.GDT_FLAG_SEGMENT ||| cfg.GDT_FLAG_DATASEG
            ||| cfg.GDT_FLAG_PRESENT)
          (cfg.GDT_FLAG_32_BIT ||| cfg.GDT_FLAG_4K_GRAN))) ∧
    (∀ st : State X86_64.tss_t, 7 ≤ st.gdt.length →
      ∃ st', X86_64.gdt_install cfg st = some st' ∧
        st'.gdt[1]? = some (configure_gdt_entry 64 e 0 0
          (cfg.GDT_FLAG_RING0 ||| cfg.GDT_FLAG_SEGMENT ||| cfg.GDT_FLAG_CODESEG
            ||| cfg.GDT_FLAG_PRESENT)
          cfg.GDT_FLAG_64_BIT) ∧
        st'.gdt[2]? = some (configure_gdt_entry 64 e 0 0
          (cfg.GDT_FLAG_RING0 ||| cfg.GDT_FLAG_SEGMENT ||| cfg.GDT_FLAG_DATASEG
            ||| cfg.GDT_FLAG_PRESENT)
          0) ∧
        st'.gdt[3]? = some (configure_gdt_entry 64 e 0 0xFFFFFFFF
          (cfg.GDT_FLAG_RING3 ||| cfg.GDT_FLAG_SEGMENT ||| cfg.GDT_FLAG_CODESEG
            ||| cfg.GDT_FLAG_PRESENT)
          (cfg.GDT_FLAG_32_BIT ||| cfg.GDT_FLAG_4K_GRAN)) ∧
        st'.gdt[4]? = some (configure_gdt_entry 64 e 0 0
          (cfg.GDT_FLAG_RING3 ||| cfg.GDT_FLAG_SEGMENT ||| cfg.GDT_FLAG_DATASEG
            ||| cfg.GDT_FLAG_PRESENT)
          0) ∧
        st'.gdt[5]? = some (configure_gdt_entry 64 e 0 0
          (cfg.GDT_FLAG_RING3 ||| cfg.GDT_FLAG_SEGMENT ||| cfg.GDT_FLAG_CODESEG
            ||| cfg.GDT_FLAG_PRESENT)
          cfg.GDT_FLAG_64_BIT)) := by
  refine ⟨fun st h => ⟨_, gdt_install_eq_32 cfg st h e, ?_⟩,
    fun st h => ⟨_, gdt_install_eq_64 cfg st h e, ?_⟩⟩
  · have h1 : 1 < st.gdt.length := by omega
    have h2 : 2 < st.gdt.length := by omega
    have h3 : 3 < st.gdt.length := by omega
    have h4 : 4 < st.gdt.length := by omega
    simp [List.getElem?_set, h1, h2, h3, h4]
  · have h1 : 1 < st.gdt.length := by omega
    have h2 : 2 < st.gdt.length := by omega
    have h3 : 3 < st.gdt.length := by omega
    have h4 : 4 < st.gdt.length := by omega
    have h5 : 5 < st.gdt.length := by omega
    simp [List.getElem?_set, h1, h2, h3, h4, h5]

/-- C5 witness: the sample configuration installed over
the stale sample states yields the familiar flat-model descriptors. -/
theorem gdt_install_segment_descriptors_witness :
    (6 ≤ sample_state_32.gdt.length ∧
      ∃ st', X86_32.gdt_install sample_config sample_state_32 = some st' ∧
        st'.gdt[1]? = some ⟨0xFFFF, 0, 0, 0x9A, 0xCF, 0⟩ ∧
        st'.gdt[2]? = some ⟨0xFFFF, 0, 0, 0x92, 0xCF, 0⟩ ∧
        st'.gdt[3]? = some ⟨0xFFFF, 0, 0, 0xFA, 0xCF, 0⟩ ∧
        st'.gdt[4]? = some ⟨0xFFFF, 0, 0, 0xF2, 0xCF, 0⟩) ∧
    (7 ≤ sample_state_64.gdt.length ∧
      ∃ st', X86_64.gdt_install sample_config sample_state_64 = some st' ∧
        st'.gdt[1]? = some ⟨0, 0, 0, 0x9A, 0x20, 0⟩ ∧
        st'.gdt[2]? = some ⟨0, 0, 0, 0x92, 0, 0⟩ ∧
        st'.gdt[3]? = some ⟨0xFFFF, 0, 0, 0xFA, 0xCF, 0⟩ ∧
        st'.gdt[4]? = some ⟨0, 0, 0, 0xF2, 0, 0⟩ ∧
        st'.gdt[5]? = some ⟨0, 0, 0, 0xFA, 0x20, 0⟩) :=
  ⟨⟨by decide,
     (gdt_install_segment_descriptors sample_config null_entry).1 sample_state_32 (by decide)⟩,
   ⟨by decide,
     (gdt_install_segment_descriptors sample_config null_entry).2 sample_state_64 (by decide)⟩⟩

theorem wsub_eq_sub (w a b : Nat) (hb : b ≤ a) (ha : a < 2 ^ w) : wsub w a b = a - b := by
  unfold wsub
  rw [Nat.mod_eq_of_lt (lt_of_le_of_lt hb ha), Nat.mod_eq_of_lt ha]
  have h : 2 ^ w - b + a = (a - b) + 2 ^ w := by omega
  rw [h, Nat.add_mod_right, Nat.mod_eq_of_lt (by omega)]

/-- C6: after `gdt_install`, the descriptor of the Task State Block is in slot 5 (32-bit
mode) respectively slot 6 (64-bit mode); it decodes to base `&task_state_segment`, limit
`sizeof(tss_t) − 1` and access byte `PRESENT|TSS|RING0` — for a Task State Block below 4 GiB,
of at most `2^20` bytes, and flags that fit the access byte. -/
theorem gdt_install_tss_descriptor (cfg : Config)
    (haddr : cfg.task_state_segment_addr < 2 ^ 32)
    (hsize : 1 ≤ cfg.sizeof_tss_t ∧ cfg.sizeof_tss_t ≤ 2 ^ 20)
    (hacc : cfg.GDT_FLAG_PRESENT ||| cfg.GDT_FLAG_TSS ||| cfg.GDT_FLAG_RING0 < 2 ^ 8) :
    (∀ st : State X86_32.tss_t, 6 ≤ st.gdt.length →
      ∃ st' d, X86_32.gdt_install cfg st = some st' ∧ st'.gdt[5]? = some d ∧
        decode_base d = cfg.task_state_segment_addr ∧
        decode_limit d = cfg.sizeof_tss_t - 1 ∧
        d.access = cfg.GDT_FLAG_PRESENT ||| cfg.GDT_FLAG_TSS ||| cfg.GDT_FLAG_RING0) ∧
    (∀ st : State X86_64.tss_t, 7 ≤ st.gdt.length →
      ∃ st' d, X86_64.gdt_install cfg st = some st' ∧ st'.gdt[6]? = some d ∧
        decode_base d = cfg.task_state_segment_addr ∧
        decode_limit d = cfg.sizeof_tss_t - 1 ∧
        d.access = cfg.GDT_FLAG_PRESENT ||| cfg.GDT_FLAG_TSS ||| cfg.GDT_FLAG_RING0) := by
  obtain ⟨hs1, hs2⟩ := hsize
  have hs32 : cfg.sizeof_tss_t < 2 ^ 32 := lt_of_le_of_lt hs2 (by norm_num)
  have hs64 : cfg.sizeof_tss_t < 2 ^ 64 := lt_of_le_of_lt hs2 (by norm_num)
  have hlim : cfg.sizeof_tss_t - 1 < 2 ^ 20 := by omega
  have ha64 : cfg.task_state_segment_addr < 2 ^ 64 := lt_trans haddr (by norm_num)
  refine ⟨fun st h => ⟨_,
      configure_gdt_entry 32 null_entry (cfg.task_state_segment_addr % 2 ^ 32)
        (wsub 32 cfg.sizeof_tss_t 1)
        (cfg.GDT_FLAG_PRESENT ||| cfg.GDT_FLAG_TSS ||| cfg.GDT_FLAG_RING0)
        (cfg.GDT_FLAG_32_BIT ||| cfg.GDT_FLAG_4K_GRAN),
      gdt_install_eq_32 cfg st h null_entry, ?_, ?_, ?_, ?_⟩,
    fun st h => ⟨_,
      configure_gdt_entry 64 null_entry (cfg.task_state_segment_addr % 2 ^ 64)
        (wsub 64 cfg.sizeof_tss_t 1)
        (cfg.GDT_FLAG_PRESENT ||| cfg.GDT_FLAG_TSS ||| cfg.GDT_FLAG_RING0) 0,
      gdt_install_eq_64 cfg st h null_entry, ?_, ?_, ?_, ?_⟩⟩
  · have h5 : 5 < st.gdt.length := by omega
    simp only [List.getElem?_set_self, List.length_set, h5, if_true]
  · rw [decode_base_configure, Nat.mod_mod, Nat.mod_mod, Nat.mod_eq_of_lt haddr]
  · rw [decode_limit_configure, wsub_eq_sub 32 _ 1 hs1 hs32,
      Nat.mod_eq_of_lt (lt_of_le_of_lt (Nat.sub_le _ _) hs32), Nat.mod_eq_of_lt hlim]
  · exact Nat.mod_eq_of_lt hacc
  · have h6 : 6 < st.gdt.length := by omega
    simp only [List.getElem?_set_self, List.length_set, h6, if_true]
  · rw [decode_base_configure, Nat.mod_mod, mod_mod_pow_of_le _ (by decide),
      Nat.mod_eq_of_lt haddr]
  · rw [decode_limit_configure, wsub_eq_sub 64 _ 1 hs1 hs64,
      Nat.mod_eq_of_lt (lt_of_le_of_lt (Nat.sub_le _ _) hs64), Nat.mod_eq_of_lt hlim]
  · exact Nat.mod_eq_of_lt hacc

/-- C6 witness at the sample configuration: base `0x108000`,
limit 103, access byte `0x89`. -/
theorem gdt_install_tss_descriptor_witness :
    (6 ≤ sample_state_32.gdt.length ∧
      ∃ st' d, X86_32.gdt_install sample_config sample_state_32 = some st' ∧
        st'.gdt[5]? = some d ∧ decode_base d = 0x108000 ∧ decode_limit d = 103 ∧
        d.access = 0x89) ∧
    (7 ≤ sample_state_64.gdt.length ∧
      ∃ st' d, X86_64.gdt_install sample_config sample_state_64 = some st' ∧
        st'.gdt[6]? = some d ∧ decode_base d = 0x108000 ∧ decode_limit d = 103 ∧
        d.access = 0x89) :=
  ⟨⟨by decide,
     (gdt_install_tss_descriptor sample_config (by decide) (by decide) (by decide)).1
       sample_state_32 (by decide)⟩,
   ⟨by decide,
     (gdt_install_tss_descriptor sample_config (by decide) (by decide) (by decide)).2
       sample_state_64 (by decide)⟩⟩

/-- C7: in 32-bit mode, after `gdt_install` from any prior state (with room for six entries
in the table), the Task State Block has `ss0 = 0x10`, `cs = 0x0b` and
`ss = ds = es = fs = gs = 0x13`. -/
theorem gdt_install_tss_selectors (cfg : Config) (st : State X86_32.tss_t)
    (h : 6 ≤ st.gdt.length) :
    ∃ st', X86_32.gdt_install cfg st = some st' ∧
      st'.task_state_segment.ss0 = 0x10 ∧ st'.task_state_segment.cs = 0x0b ∧
      st'.task_state_segment.ss = 0x13 ∧ st'.task_state_segment.ds = 0x13 ∧
      st'.task_state_segment.es = 0x13 ∧ st'.task_state_segment.fs = 0x13 ∧
      st'.task_state_segment.gs = 0x13 :=
  ⟨_, gdt_install_eq_32 cfg st h null_entry, rfl, rfl, rfl, rfl, rfl, rfl, rfl⟩

/-- C7 witness at the sample configuration and state. -/
theorem gdt_install_tss_selectors_witness :
    6 ≤ sample_state_32.gdt.length ∧
    ∃ st', X86_32.gdt_install sample_config sample_state_32 = some st' ∧
      st'.task_state_segment.ss0 = 0x10 ∧ st'.task_state_segment.cs = 0x0b ∧
      st'.task_state_segment.ss = 0x13 ∧ st'.task_state_segment.ds = 0x13 ∧
      st'.task_state_segment.es = 0x13 ∧ st'.task_state_segment.fs = 0x13 ∧
      st'.task_state_segment.gs = 0x13 :=
  ⟨by decide, gdt_install_tss_selectors sample_config sample_state_32 (by decide)⟩

/-- C8 (as stated, refuted): at the sample configuration `gdt_install` puts the ring-3 data
descriptor in slot 4 and the ring-3 code descriptor in slot 3, but the selectors it writes
name other slots: `0x13` (in `ds`) names slot 2 and `0x0b` (in `cs`) names slot 1, whose
descriptors differ from the ring-3 ones. -/
theorem tss_selectors_ring3_slots_counterexample :
    ∃ st', X86_32.gdt_install sample_config sample_state_32 = some st' ∧
      st'.task_state_segment.ds = 0x13 ∧ st'.task_state_segment.cs = 0x0b ∧
      st'.gdt[4]? = some (configure_gdt_entry 32 null_entry 0 0xFFFFFFFF
        (sample_config.GDT_FLAG_RING3 ||| sample_config.GDT_FLAG_SEGMENT
          ||| sample_config.GDT_FLAG_DATASEG ||| sample_config.GDT_FLAG_PRESENT)
        (sample_config.GDT_FLAG_32_BIT ||| sample_config.GDT_FLAG_4K_GRAN)) ∧
      st'.gdt[3]? = some (configure_gdt_entry 32 null_entry 0 0xFFFFFFFF
        (sample_config.GDT_FLAG_RING3 ||| sample_config.GDT_FLAG_SEGMENT
          ||| sample_config.GDT_FLAG_CODESEG ||| sample_config.GDT_FLAG_PRESENT)
        (sample_config.GDT_FLAG_32_BIT ||| sample_config.GDT_FLAG_4K_GRAN)) ∧
      selector_index st'.task_state_segment.ds = 2 ∧
      selector_index st'.task_state_segment.cs = 1 ∧
      st'.gdt[selector_index st'.task_state_segment.ds]? ≠ st'.gdt[4]? ∧
      st'.gdt[selector_index st'.task_state_segment.cs]? ≠ st'.gdt[3]? := by
  refine ⟨_, gdt_install_eq_32 sample_config sample_state_32 (by decide) null_entry, ?_⟩
  decide

/-- C8 (amended): in 32-bit mode, under the rule selector = table index × 8 with the low
bits carrying the requested privilege level, the selectors `gdt_install` writes name the
ring-0 descriptors: `0x10` (`ss0`, privilege 0) and `0x13` (`ss`, `ds`, `es`, `fs`, `gs`,
requested privilege 3) both name slot 2, where the ring-0 data descriptor was placed, and
`0x0b` (`cs`, requested privilege 3) names slot 1, where the ring-0 code descriptor was
placed. -/
theorem tss_selectors_name_ring0_slots (cfg : Config) (e : gdt_entry_t)
    (st : State X86_32.tss_t) (h : 6 ≤ st.gdt.length) :
    ∃ st', X86_32.gdt_install cfg st = some st' ∧
      (selector_index st'.task_state_segment.ss0 = 2 ∧
        selector_rpl st'.task_state_segment.ss0 = 0) ∧
      (∀ sel ∈ [st'.task_state_segment.ss, st'.task_state_segment.ds,
          st'.task_state_segment.es, st'.task_state_segment.fs, st'.task_state_segment.gs],
        sel = 0x13 ∧ selector_index sel = 2 ∧ selector_rpl sel = 3) ∧
      (st'.task_state_segment.cs = 0x0b ∧ selector_index st'.task_state_segment.cs = 1 ∧
        selector_rpl st'.task_state_segment.cs = 3) ∧
      st'.gdt[2]? = some (configure_gdt_entry 32 e 0 0xFFFFFFFF
        (cfg.GDT_FLAG_RING0 ||| cfg.GDT_FLAG_SEGMENT ||| cfg.GDT_FLAG_DATASEG
          ||| cfg.GDT_FLAG_PRESENT)
        (cfg.GDT_FLAG_32_BIT ||| cfg.GDT_FLAG_4K_GRAN)) ∧
      st'.gdt[1]? = some (configure_gdt_entry 32 e 0 0xFFFFFFFF
        (cfg.GDT_FLAG_RING0 ||| cfg.GDT_FLAG_SEGMENT ||| cfg.GDT_FLAG_CODESEG
          ||| cfg.GDT_FLAG_PRESENT)
        (cfg.GDT_FLAG_32_BIT ||| cfg.GDT_FLAG_4K_GRAN)) := by
  have h1 : 1 < st.gdt.length := by omega
  have h2 : 2 < st.gdt.length := by omega
  have i10 : selector_index 0x10 = 2 ∧ selector_rpl 0x10 = 0 := by decide
  have i13 : (0x13 : Nat) = 0x13 ∧ selector_index 0x13 = 2 ∧ selector_rpl 0x13 = 3 := by decide
  have i0b : (0x0b : Nat) = 0x0b ∧ selector_index 0x0b = 1 ∧ selector_rpl 0x0b = 3 := by decide
  refine ⟨_, gdt_install_eq_32 cfg st h e, i10, ?_, i0b, ?_, ?_⟩
  · intro sel hsel
    simp only [List.mem_cons, List.mem_singleton, List.not_mem_nil, or_false] at hsel
    rcases hsel with h | h | h | h | h <;> (subst h; exact i13)
  · simp [List.getElem?_set, h2]
  · simp [List.getElem?_set, h1]

/-- C8 witness (amended claim) at the sample configuration and state. -/
theorem tss_selectors_name_ring0_slots_witness :
    6 ≤ sample_state_32.gdt.length ∧
    ∃ st', X86_32.gdt_install sample_config sample_state_32 = some st' ∧
      (selector_index st'.task_state_segment.ss0 = 2 ∧
        selector_rpl st'.task_state_segment.ss0 = 0) ∧
      (∀ sel ∈ [st'.task_state_segment.ss, st'.task_state_segment.ds,
          st'.task_state_segment.es, st'.task_state_segment.fs, st'.task_state_segment.gs],
        sel = 0x13 ∧ selector_index sel = 2 ∧ selector_rpl sel = 3) ∧
      (st'.task_state_segment.cs = 0x0b ∧ selector_index st'.task_state_segment.cs = 1 ∧
        selector_rpl st'.task_state_segment.cs = 3) ∧
      st'.gdt[2]? = some ⟨0xFFFF, 0, 0, 0x92, 0xCF, 0⟩ ∧
      st'.gdt[1]? = some ⟨0xFFFF, 0, 0, 0x9A, 0xCF, 0⟩ :=
  ⟨by decide,
   tss_selectors_name_ring0_slots sample_config null_entry sample_state_32 (by decide)⟩

/-- C9: after `gdt_install`, whatever the table held before (as long as it has room for the
entries), slot 0 is the all-zero descriptor, in both modes. -/
theorem gdt_install_null_descriptor (cfg : Config) :
    (∀ st : State X86_32.tss_t, 6 ≤ st.gdt.length →
      ∃ st', X86_32.gdt_install cfg st = some st' ∧
        st'.gdt[0]? = some
          { limit_low := 0, base_low := 0, base_middle := 0, access := 0, granularity := 0,
            base_high := 0 }) ∧
    (∀ st : State X86_64.tss_t, 7 ≤ st.gdt.length →
      ∃ st', X86_64.gdt_install cfg st = some st' ∧
        st'.gdt[0]? = some
          { limit_low := 0, base_low := 0, base_middle := 0, access := 0, granularity := 0,
            base_high := 0 }) := by
  have hz32 : configure_gdt_entry 32 null_entry 0 0 0 0 = ⟨0, 0, 0, 0, 0, 0⟩ := by decide
  have hz64 : configure_gdt_entry 64 null_entry 0 0 0 0 = ⟨0, 0, 0, 0, 0, 0⟩ := by decide
  refine ⟨fun st h => ⟨_, gdt_install_eq_32 cfg st h null_entry, ?_⟩,
    fun st h => ⟨_, gdt_install_eq_64 cfg st h null_entry, ?_⟩⟩
  · have h0 : 0 < st.gdt.length := by omega
    simp [List.getElem?_set, h0, hz32]
  · have h0 : 0 < st.gdt.length := by omega
    simp [List.getElem?_set, h0, hz64]

/-- C9 witness at the sample configuration and the stale sample states. -/
theorem gdt_install_null_descriptor_witness :
    (6 ≤ sample_state_32.gdt.length ∧
      ∃ st', X86_32.gdt_install sample_config sample_state_32 = some st' ∧
        st'.gdt[0]? = some ⟨0, 0, 0, 0, 0, 0⟩) ∧
    (7 ≤ sample_state_64.gdt.length ∧
      ∃ st', X86_64.gdt_install sample_config sample_state_64 = some st' ∧
        st'.gdt[0]? = some ⟨0, 0, 0, 0, 0, 0⟩) :=
  ⟨⟨by decide, (gdt_install_null_descriptor sample_config).1 sample_state_32 (by decide)⟩,
   ⟨by decide, (gdt_install_null_descriptor sample_config).2 sample_state_64 (by decide)⟩⟩

theorem gp_limit_eq (w N : Nat) (hw : 17 ≤ w) (h1 : 1 ≤ N) (h2 : N ≤ 8192) :
    wsub w (wmul w sizeof_gdt_entry_t N) 1 % 2 ^ 16 = N * sizeof_gdt_entry_t - 1 := by
  have hpow : 2 ^ 17 ≤ 2 ^ w := Nat.pow_le_pow_right (by decide) hw
  have h17 : (2 : Nat) ^ 17 = 131072 := by norm_num
  have hlt : sizeof_gdt_entry_t * N < 2 ^ w := by
    simp only [sizeof_gdt_entry_t]; omega
  have hmul : wmul w sizeof_gdt_entry_t N = sizeof_gdt_entry_t * N := by
    unfold wmul; exact Nat.mod_eq_of_lt hlt
  rw [hmul, wsub_eq_sub w _ 1 (by simp only [sizeof_gdt_entry_t]; omega) hlt]
  simp only [sizeof_gdt_entry_t]
  omega

/-- C10: after `gdt_install`, the table-descriptor pair `gp` has
`limit = GDT_ENTRIES × sizeof(gdt_entry_t) − 1` and `base = &gdt` — for a table of
`GDT_ENTRIES` entries that the installer fits into and whose byte size fits the 16-bit
limit (`GDT_ENTRIES ≤ 8192`), and `&gdt` a machine address of the mode. -/
theorem gdt_install_table_pointer (cfg : Config) (hmax : cfg.GDT_ENTRIES ≤ 8192) :
    (∀ st : State X86_32.tss_t, st.gdt.length = cfg.GDT_ENTRIES → 6 ≤ cfg.GDT_ENTRIES →
      cfg.gdt_addr < 2 ^ 32 →
      ∃ st', X86_32.gdt_install cfg st = some st' ∧
        st'.gp.limit = cfg.GDT_ENTRIES * sizeof_gdt_entry_t - 1 ∧
        st'.gp.base = cfg.gdt_addr) ∧
    (∀ st : State X86_64.tss_t, st.gdt.length = cfg.GDT_ENTRIES → 7 ≤ cfg.GDT_ENTRIES →
      cfg.gdt_addr < 2 ^ 64 →
      ∃ st', X86_64.gdt_install cfg st = some st' ∧
        st'.gp.limit = cfg.GDT_ENTRIES * sizeof_gdt_entry_t - 1 ∧
        st'.gp.base = cfg.gdt_addr) := by
  refine ⟨fun st hlen h6 haddr =>
      ⟨_, gdt_install_eq_32 cfg st (hlen ▸ h6) null_entry, ?_, ?_⟩,
    fun st hlen h7 haddr =>
      ⟨_, gdt_install_eq_64 cfg st (hlen ▸ h7) null_entry, ?_, ?_⟩⟩
  · exact gp_limit_eq 32 _ (by decide) (by omega) hmax
  · exact Nat.mod_eq_of_lt haddr
  · exact gp_limit_eq 64 _ (by decide) (by omega) hmax
  · exact Nat.mod_eq_of_lt haddr

/-- C10 witness at the sample configuration: eight entries give limit 63. -/
theorem gdt_install_table_pointer_witness :
    sample_config.GDT_ENTRIES ≤ 8192 ∧
    (∃ st', X86_32.gdt_install sample_config sample_state_32 = some st' ∧
        st'.gp.limit = 63 ∧ st'.gp.base = 0x109000) ∧
    (∃ st', X86_64.gdt_install sample_config sample_state_64 = some st' ∧
        st'.gp.limit = 63 ∧ st'.gp.base = 0x109000) :=
  ⟨by decide,
   (gdt_install_table_pointer sample_config (by decide)).1 sample_state_32
     (by decide) (by decide) (by decide),
   (gdt_install_table_pointer sample_config (by decide)).2 sample_state_64
     (by decide) (by decide) (by decide)⟩

/-! ## Repeated installation -/

theorem set6_idem (l : List gdt_entry_t) (a0 a1 a2 a3 a4 a5 : gdt_entry_t) :
    ((((((((((((l.set 0 a0).set 1 a1).set 2 a2).set 3 a3).set 4 a4).set 5 a5).set 0 a0).set 1
      a1).set 2 a2).set 3 a3).set 4 a4).set 5 a5)
      = (((((l.set 0 a0).set 1 a1).set 2 a2).set 3 a3).set 4 a4).set 5 a5 := by
  apply List.ext_getElem?
  intro n
  simp only [List.getElem?_set, List.length_set]
  split_ifs <;> rfl

theorem set7_idem (l : List gdt_entry_t) (a0 a1 a2 a3 a4 a5 a6 : gdt_entry_t) :
    ((((((((((((((l.set 0 a0).set 1 a1).set 2 a2).set 3 a3).set 4 a4).set 5 a5).set 6 a6).set 0
      a0).set 1 a1).set 2 a2).set 3 a3).set 4 a4).set 5 a5).set 6 a6)
      = ((((((l.set 0 a0).set 1 a1).set 2 a2).set 3 a3).set 4 a4).set 5 a5).set 6 a6 := by
  apply List.ext_getElem?
  intro n
  simp only [List.getElem?_set, List.length_set]
  split_ifs <;> rfl

/-- C11: layout idempotence of installation.  For every configuration and every starting
state (whose table has room for the entries), running `gdt_install` a second time on the
state the first run produced gives that same state again: same table, same
table-descriptor pair, same Task State Block, so every descriptor keeps its index. -/
theorem gdt_install_idempotent (cfg : Config) :
    (∀ st : State X86_32.tss_t, 6 ≤ st.gdt.length →
      ∃ st', X86_32.gdt_install cfg st = some st' ∧ X86_32.gdt_install cfg st' = some st') ∧
    (∀ st : State X86_64.tss_t, 7 ≤ st.gdt.length →
      ∃ st', X86_64.gdt_install cfg st = some st' ∧ X86_64.gdt_install cfg st' = some st') := by
  refine ⟨fun st h => ⟨_, gdt_install_eq_32 cfg st h null_entry, ?_⟩,
    fun st h => ⟨_, gdt_install_eq_64 cfg st h null_entry, ?_⟩⟩
  · rw [gdt_install_eq_32 cfg _ (by simp only [List.length_set]; exact h) null_entry]
    simp only [set6_idem, List.length_replicate]
  · rw [gdt_install_eq_64 cfg _ (by simp only [List.length_set]; exact h) null_entry]
    simp only [set7_idem, List.length_replicate]

/-- C11 witness: installing twice over the stale sample states. -/
theorem gdt_install_idempotent_witness :
    (6 ≤ sample_state_32.gdt.length ∧
      ∃ st', X86_32.gdt_install sample_config sample_state_32 = some st' ∧
        X86_32.gdt_install sample_config st' = some st') ∧
    (7 ≤ sample_state_64.gdt.length ∧
      ∃ st', X86_64.gdt_install sample_config sample_state_64 = some st' ∧
        X86_64.gdt_install sample_config st' = some st') :=
  ⟨⟨by decide, (gdt_install_idempotent sample_config).1 sample_state_32 (by decide)⟩,
   ⟨by decide, (gdt_install_idempotent sample_config).2 sample_state_64 (by decide)⟩⟩

/-! ## Descriptor encoder: fields as functions of the arguments -/

theorem shift_mod (n w k j : Nat) (h : k + j ≤ w) :
    ((n % 2 ^ w) >>> k) % 2 ^ j = (n >>> k) % 2 ^ j := by
  apply Nat.eq_of_testBit_eq
  intro i
  simp only [Nat.testBit_mod_two_pow, Nat.testBit_shiftRight]
  by_cases hi : i < j
  · have : k + i < w := by omega
    simp [hi, this]
  · simp [hi]

theorem testBit_0xF0 (i : Nat) : Nat.testBit 0xF0 i = (decide (4 ≤ i) && decide (i < 8)) := by
  have h : (0xF0 : Nat) = (2 ^ 4 - 1) <<< 4 := by decide
  rw [h, Nat.testBit_shiftLeft, Nat.testBit_two_pow_sub_one]
  by_cases h4 : 4 ≤ i
  · have e : (decide (i - 4 < 4)) = decide (i < 8) := by
      by_cases h8 : i < 8
      · have : i - 4 < 4 := by omega
        simp [h8, this]
      · have : ¬ (i - 4 < 4) := by omega
        simp [h8, this]
    simp [h4, e]
  · simp [h4]

theorem and_0xF0_mod (g : Nat) : g % 2 ^ 8 &&& 0xF0 = g &&& 0xF0 := by
  apply Nat.eq_of_testBit_eq
  intro i
  simp only [Nat.testBit_and, Nat.testBit_mod_two_pow, testBit_0xF0]
  by_cases h8 : i < 8
  · simp [h8]
  · simp [h8]

theorem and_0xF0_idem (g : Nat) : (g &&& 0xF0) &&& 0xF0 = g &&& 0xF0 := by
  rw [Nat.and_assoc, Nat.and_self]

theorem gran_high_nibble (a g : Nat) :
    ((a % 2 ^ 4) ||| (g &&& 0xF0)) &&& 0xF0 = g &&& 0xF0 := by
  apply Nat.eq_of_testBit_eq
  intro i
  simp only [Nat.testBit_and, Nat.testBit_or, Nat.testBit_mod_two_pow, testBit_0xF0]
  by_cases h4 : 4 ≤ i
  · have : ¬ i < 4 := by omega
    simp [h4, this]
  · simp [h4]

/-- The entry written by the encoder, field by field, when `unsigned long` has at least 32
bits. -/
theorem configure_gdt_entry_fields (w : Nat) (hw : 32 ≤ w) (e : gdt_entry_t)
    (base limit access gran : Nat) :
    configure_gdt_entry w e base limit access gran =
      { limit_low := limit % 2 ^ 16
        base_low := base % 2 ^ 16
        base_middle := (base >>> 16) % 2 ^ 8
        access := access % 2 ^ 8
        granularity := ((limit >>> 16) % 2 ^ 4) ||| (gran &&& 0xF0)
        base_high := (base >>> 24) % 2 ^ 8 } := by
  simp only [configure_gdt_entry, and_mask16, and_mask8, and_mask4, and_0xF0_mod]
  rw [mod_mod_pow_of_le base (show 16 ≤ w by omega),
    mod_mod_pow_of_le limit (show 16 ≤ w by omega),
    shift_mod base w 16 8 (by omega), shift_mod base w 24 8 (by omega),
    shift_mod limit w 16 4 (by omega)]

/-- C12: for every base, limit, access byte and granularity argument (and both widths of
`unsigned long`), the granularity byte written by `configure_gdt_entry` has upper nibble
`gran & 0xF0` and lower nibble `(limit >> 16) & 0x0F`; the low nibble of the granularity
argument does not reach the entry (masking it away beforehand changes nothing); and the
access byte is stored unchanged. -/
theorem configure_gdt_entry_nibbles (e : gdt_entry_t) (base limit access gran : Nat)
    (hacc : access < 2 ^ 8) :
    ((configure_gdt_entry 32 e base limit access gran).granularity &&& 0xF0 = gran &&& 0xF0 ∧
     (configure_gdt_entry 32 e base limit access gran).granularity &&& 0x0F
        = (limit >>> 16) &&& 0x0F ∧
     configure_gdt_entry 32 e base limit access (gran &&& 0xF0)
        = configure_gdt_entry 32 e base limit access gran ∧
     (configure_gdt_entry 32 e base limit access gran).access = access) ∧
    ((configure_gdt_entry 64 e base limit access gran).granularity &&& 0xF0 = gran &&& 0xF0 ∧
     (configure_gdt_entry 64 e base limit access gran).granularity &&& 0x0F
        = (limit >>> 16) &&& 0x0F ∧
     configure_gdt_entry 64 e base limit access (gran &&& 0xF0)
        = configure_gdt_entry 64 e base limit access gran ∧
     (configure_gdt_entry 64 e base limit access gran).access = access) := by
  have hlow : ∀ a g : Nat, ((a % 2 ^ 4) ||| (g &&& 0xF0)) &&& 0x0F = a &&& 0x0F := by
    intro a g
    have := gran_low_nibble a g
    rw [and_mask4 a] at this
    rw [this, and_mask4]
  simp only [configure_gdt_entry_fields 32 (by decide), configure_gdt_entry_fields 64 (by decide),
    gran_high_nibble, hlow, and_0xF0_idem, Nat.mod_eq_of_lt hacc, and_self]

/-- C12 witness: base `0x12345678`, limit `0xABCDE`, access `0x9A`, granularity argument
`0xCF` give the granularity byte `0xCA` and the access byte `0x9A`. -/
theorem configure_gdt_entry_nibbles_witness :
    (0x9A : Nat) < 2 ^ 8 ∧
    (configure_gdt_entry 32 stale_entry 0x12345678 0xABCDE 0x9A 0xCF).granularity = 0xCA ∧
    (configure_gdt_entry 32 stale_entry 0x12345678 0xABCDE 0x9A 0xCF).granularity &&& 0xF0
      = 0xCF &&& 0xF0 ∧
    (configure_gdt_entry 32 stale_entry 0x12345678 0xABCDE 0x9A 0xCF).access = 0x9A :=
  ⟨by decide, by decide,
   (configure_gdt_entry_nibbles stale_entry 0x12345678 0xABCDE 0x9A 0xCF (by decide)).1.1,
   (configure_gdt_entry_nibbles stale_entry 0x12345678 0xABCDE 0x9A 0xCF (by decide)).1.2.2.2⟩

/-- C13: out-of-range inputs are truncated to the field width.  For every base, limit,
access and gran, and both widths of `unsigned long`, `configure_gdt_entry` writes the same
entry for `(base, limit)` as for `(base mod 2^32, limit mod 2^20)`; the encoder is a total
function, so no input makes it fail. -/
theorem configure_gdt_entry_truncates (e : gdt_entry_t) (base limit access gran : Nat) :
    configure_gdt_entry 32 e base limit access gran
      = configure_gdt_entry 32 e (base % 2 ^ 32) (limit % 2 ^ 20) access gran ∧
    configure_gdt_entry 64 e base limit access gran
      = configure_gdt_entry 64 e (base % 2 ^ 32) (limit % 2 ^ 20) access gran := by
  simp only [configure_gdt_entry_fields 32 (by decide), configure_gdt_entry_fields 64 (by decide)]
  rw [mod_mod_pow_of_le base (show 16 ≤ 32 by decide),
    mod_mod_pow_of_le limit (show 16 ≤ 20 by decide),
    shift_mod base 32 16 8 (by decide), shift_mod base 32 24 8 (by decide),
    shift_mod limit 20 16 4 (by decide)]
  exact ⟨rfl, rfl⟩

/-! ## Single-gate writes -/

/-- C14: `gdt_set_gate(num, ...)` with an index inside the table succeeds and mutates exactly
one table slot: slot `num` receives the encoded entry, every slot with another index, the
length of the table, the Task State Block, the table-descriptor pair and the current task
are unchanged. -/
theorem gdt_set_gate_frame {tss : Type} (w : Nat) (st : State tss) (num : Int)
    (base limit access gran : Nat) (h0 : 0 ≤ num) (h1 : num < st.gdt.length) :
    ∃ st', gdt_set_gate w st num base limit access gran = some st' ∧
      st'.gdt[num.toNat]? = some (configure_gdt_entry w null_entry base limit access gran) ∧
      (∀ i : Nat, (i : Int) ≠ num → st'.gdt[i]? = st.gdt[i]?) ∧
      st'.gdt.length = st.gdt.length ∧
      st'.task_state_segment = st.task_state_segment ∧
      st'.gp = st.gp ∧
      st'.current_task = st.current_task := by
  have hn : num = (num.toNat : Int) := (Int.toNat_of_nonneg h0).symm
  have hlt : num.toNat < st.gdt.length := by omega
  refine ⟨_, gdt_set_gate_of_lt w st num num.toNat hn hlt base limit access gran null_entry,
    ?_, ?_, ?_, rfl, rfl, rfl⟩
  · exact List.getElem?_set_self hlt
  · intro i hi
    have hne : num.toNat ≠ i := by omega
    exact List.getElem?_set_ne hne
  · exact List.length_set _ _ _

/-- C14 witness: writing slot 3 of the stale 32-bit sample state. -/
theorem gdt_set_gate_frame_witness :
    (0 : Int) ≤ 3 ∧ (3 : Int) < sample_state_32.gdt.length ∧
    ∃ st', gdt_set_gate 32 sample_state_32 3 0x12345678 0xABCDE 0x9A 0xCF = some st' ∧
      st'.gdt[(3 : Int).toNat]? = some ⟨0xBCDE, 0x5678, 0x34, 0x9A, 0xCA, 0x12⟩ ∧
      (∀ i : Nat, (i : Int) ≠ 3 → st'.gdt[i]? = sample_state_32.gdt[i]?) ∧
      st'.gdt.length = sample_state_32.gdt.length ∧
      st'.task_state_segment = sample_state_32.task_state_segment ∧
      st'.gp = sample_state_32.gp ∧
      st'.current_task = sample_state_32.current_task :=
  ⟨by decide, by decide,
   gdt_set_gate_frame 32 sample_state_32 3 0x12345678 0xABCDE 0x9A 0xCF (by decide)
     (by decide)⟩

/-- C15: `gdt_set_gate` is idempotent for identical inputs.  With an index inside the table,
a second call with the same arguments on the state the first call produced gives that same
state again; and the content of the written slot does not depend on what the slot (or the
rest of the state) held before. -/
theorem gdt_set_gate_idempotent {tss : Type} (w : Nat) (st : State tss) (num : Int)
    (base limit access gran : Nat) (h0 : 0 ≤ num) (h1 : num < st.gdt.length) :
    ∃ st', gdt_set_gate w st num base limit access gran = some st' ∧
      gdt_set_gate w st' num base limit access gran = some st' ∧
      (∀ e : gdt_entry_t,
        st'.gdt[num.toNat]? = some (configure_gdt_entry w e base limit access gran)) ∧
      (∀ st2 : State tss, num < st2.gdt.length →
        ∃ st2', gdt_set_gate w st2 num base limit access gran = some st2' ∧
          st2'.gdt[num.toNat]? = st'.gdt[num.toNat]?) := by
  have hn : num = (num.toNat : Int) := (Int.toNat_of_nonneg h0).symm
  have hlt : num.toNat < st.gdt.length := by omega
  refine ⟨_, gdt_set_gate_of_lt w st num num.toNat hn hlt base limit access gran null_entry,
    ?_, ?_, ?_⟩
  · rw [gdt_set_gate_of_lt w _ num num.toNat hn
      (by simp only [List.length_set]; exact hlt) base limit access gran null_entry]
    simp only [List.set_set]
  · intro e
    rw [configure_gdt_entry_dest w e null_entry]
    exact List.getElem?_set_self hlt
  · intro st2 h2
    have hlt2 : num.toNat < st2.gdt.length := by omega
    refine ⟨_, gdt_set_gate_of_lt w st2 num num.toNat hn hlt2 base limit access gran
      null_entry, ?_⟩
    show (st2.gdt.set num.toNat _)[num.toNat]? = (st.gdt.set num.toNat _)[num.toNat]?
    rw [List.getElem?_set_self hlt2, List.getElem?_set_self hlt]

/-- C15 witness: writing slot 3 of the stale 32-bit sample state twice. -/
theorem gdt_set_gate_idempotent_witness :
    (0 : Int) ≤ 3 ∧ (3 : Int) < sample_state_32.gdt.length ∧
    ∃ st', gdt_set_gate 32 sample_state_32 3 0x12345678 0xABCDE 0x9A 0xCF = some st' ∧
      gdt_set_gate 32 st' 3 0x12345678 0xABCDE 0x9A 0xCF = some st' ∧
      (∀ e : gdt_entry_t,
        st'.gdt[(3 : Int).toNat]?
          = some (configure_gdt_entry 32 e 0x12345678 0xABCDE 0x9A 0xCF)) ∧
      (∀ st2 : State X86_32.tss_t, (3 : Int) < st2.gdt.length →
        ∃ st2', gdt_set_gate 32 st2 3 0x12345678 0xABCDE 0x9A 0xCF = some st2' ∧
          st2'.gdt[(3 : Int).toNat]? = st'.gdt[(3 : Int).toNat]?) :=
  ⟨by decide, by decide,
   gdt_set_gate_idempotent 32 sample_state_32 3 0x12345678 0xABCDE 0x9A 0xCF (by decide)
     (by decide)⟩

/-! ## Task switches after installation -/

theorem task_switches_frame_32 (cfg : Config) (tasks : List task_t) :
    ∀ st : State X86_32.tss_t,
      (X86_32.task_switches cfg tasks st).gdt = st.gdt ∧
      (X86_32.task_switches cfg tasks st).gp = st.gp ∧
      (X86_32.task_switches cfg tasks st).task_state_segment
        = { st.task_state_segment with
            esp0 := (X86_32.task_switches cfg tasks st).task_state_segment.esp0 } := by
  induction tasks with
  | nil => intro st; exact ⟨rfl, rfl, rfl⟩
  | cons t ts ih =>
    intro st
    obtain ⟨h1, h2, h3⟩ := ih (X86_32.set_kernel_stack cfg { st with current_task := t })
    refine ⟨h1, h2, ?_⟩
    show (X86_32.task_switches cfg ts
        (X86_32.set_kernel_stack cfg { st with current_task := t })).task_state_segment = _
    rw [h3]
    rfl

theorem task_switches_frame_64 (cfg : Config) (tasks : List task_t) :
    ∀ st : State X86_64.tss_t,
      (X86_64.task_switches cfg tasks st).gdt = st.gdt ∧
      (X86_64.task_switches cfg tasks st).gp = st.gp ∧
      (X86_64.task_switches cfg tasks st).task_state_segment
        = { st.task_state_segment with
            rsp0 := (X86_64.task_switches cfg tasks st).task_state_segment.rsp0 } := by
  induction tasks with
  | nil => intro st; exact ⟨rfl, rfl, rfl⟩
  | cons t ts ih =>
    intro st
    obtain ⟨h1, h2, h3⟩ := ih (X86_64.set_kernel_stack cfg { st with current_task := t })
    refine ⟨h1, h2, ?_⟩
    show (X86_64.task_switches cfg ts
        (X86_64.set_kernel_stack cfg { st with current_task := t })).task_state_segment = _
    rw [h3]
    rfl

/-- C16: `set_kernel_stack` changes only the privilege-0 stack-pointer field.  One call
leaves every table slot, the table-descriptor pair, the current task and every other field
of the Task State Block (`ss0`, `eflags`, `cs`, `ss`, `ds`, `es`, `fs`, `gs` and the rest in
32-bit mode) as they were; hence any run of task switches, each followed by
`set_kernel_stack`, started in the state `gdt_install` produced leaves the table, the
table-descriptor pair and those fields as `gdt_install` built them. -/
theorem set_kernel_stack_frame (cfg : Config) (tasks : List task_t) :
    (∀ st : State X86_32.tss_t,
      ((X86_32.set_kernel_stack cfg st).gdt = st.gdt ∧
        (X86_32.set_kernel_stack cfg st).gp = st.gp ∧
        (X86_32.set_kernel_stack cfg st).current_task = st.current_task ∧
        (X86_32.set_kernel_stack cfg st).task_state_segment
          = { st.task_state_segment with
              esp0 := (X86_32.set_kernel_stack cfg st).task_state_segment.esp0 }) ∧
      (∀ st', X86_32.gdt_install cfg st = some st' →
        (X86_32.task_switches cfg tasks st').gdt = st'.gdt ∧
        (X86_32.task_switches cfg tasks st').gp = st'.gp ∧
        (X86_32.task_switches cfg tasks st').task_state_segment
          = { st'.task_state_segment with
              esp0 := (X86_32.task_switches cfg tasks st').task_state_segment.esp0 })) ∧
    (∀ st : State X86_64.tss_t,
      ((X86_64.set_kernel_stack cfg st).gdt = st.gdt ∧
        (X86_64.set_kernel_stack cfg st).gp = st.gp ∧
        (X86_64.set_kernel_stack cfg st).current_task = st.current_task ∧
        (X86_64.set_kernel_stack cfg st).task_state_segment
          = { st.task_state_segment with
              rsp0 := (X86_64.set_kernel_stack cfg st).task_state_segment.rsp0 }) ∧
      (∀ st', X86_64.gdt_install cfg st = some st' →
        (X86_64.task_switches cfg tasks st').gdt = st'.gdt ∧
        (X86_64.task_switches cfg tasks st').gp = st'.gp ∧
        (X86_64.task_switches cfg tasks st').task_state_segment
          = { st'.task_state_segment with
              rsp0 := (X86_64.task_switches cfg tasks st').task_state_segment.rsp0 })) :=
  ⟨fun _ => ⟨⟨rfl, rfl, rfl, rfl⟩, fun st' _ => task_switches_frame_32 cfg tasks st'⟩,
   fun _ => ⟨⟨rfl, rfl, rfl, rfl⟩, fun st' _ => task_switches_frame_64 cfg tasks st'⟩⟩

/-- C16 witness: two task switches after installing the sample configuration over the
stale sample states, in both modes. -/
theorem set_kernel_stack_frame_witness :
    (∃ st', X86_32.gdt_install sample_config sample_state_32 = some st' ∧
      (X86_32.task_switches sample_config [⟨0x200000⟩, ⟨0x300000⟩] st').gdt = st'.gdt ∧
      (X86_32.task_switches sample_config [⟨0x200000⟩, ⟨0x300000⟩] st').gp = st'.gp ∧
      (X86_32.task_switches sample_config [⟨0x200000⟩, ⟨0x300000⟩] st').task_state_segment
        = { st'.task_state_segment with
            esp0 := (X86_32.task_switches sample_config [⟨0x200000⟩, ⟨0x300000⟩]
              st').task_state_segment.esp0 }) ∧
    (∃ st', X86_64.gdt_install sample_config sample_state_64 = some st' ∧
      (X86_64.task_switches sample_config [⟨0x200000⟩, ⟨0x300000⟩] st').gdt = st'.gdt ∧
      (X86_64.task_switches sample_config [⟨0x200000⟩, ⟨0x300000⟩] st').gp = st'.gp ∧
      (X86_64.task_switches sample_config [⟨0x200000⟩, ⟨0x300000⟩] st').task_state_segment
        = { st'.task_state_segment with
            rsp0 := (X86_64.task_switches sample_config [⟨0x200000⟩, ⟨0x300000⟩]
              st').task_state_segment.rsp0 }) :=
  ⟨⟨_, gdt_install_eq_32 sample_config sample_state_32 (by decide) null_entry,
     ((set_kernel_stack_frame sample_config [⟨0x200000⟩, ⟨0x300000⟩]).1 sample_state_32).2 _
       (gdt_install_eq_32 sample_config sample_state_32 (by decide) null_entry)⟩,
   ⟨_, gdt_install_eq_64 sample_config sample_state_64 (by decide) null_entry,
     ((set_kernel_stack_frame sample_config [⟨0x200000⟩, ⟨0x300000⟩]).2 sample_state_64).2 _
       (gdt_install_eq_64 sample_config sample_state_64 (by decide) null_entry)⟩⟩

/-! ## Flat segments -/

theorem flat_descriptor (w : Nat) (hw : 32 ≤ w) (access gran : Nat) :
    decode_limit (configure_gdt_entry w null_entry 0 0xFFFFFFFF access gran) = 0xFFFFF ∧
    decode_base (configure_gdt_entry w null_entry 0 0xFFFFFFFF access gran) = 0 ∧
    (decode_limit (configure_gdt_entry w null_entry 0 0xFFFFFFFF access gran) + 1) * 4096
      = 2 ^ 32 ∧
    (configure_gdt_entry w null_entry 0 0xFFFFFFFF access gran).granularity &&& 0xF0
      = gran &&& 0xF0 := by
  have hl : decode_limit (configure_gdt_entry w null_entry 0 0xFFFFFFFF access gran)
      = 0xFFFFF := by
    rw [decode_limit_configure, mod_mod_pow_of_le _ (show 20 ≤ w by omega)]
    decide
  have hb : decode_base (configure_gdt_entry w null_entry 0 0xFFFFFFFF access gran) = 0 := by
    rw [decode_base_configure, Nat.zero_mod, Nat.zero_mod]
  refine ⟨hl, hb, ?_, ?_⟩
  · rw [hl]; decide
  · rw [configure_gdt_entry_fields w hw]
    exact gran_high_nibble _ _

/-- C17: in 32-bit mode the flat segments in slots 1 to 4, and in 64-bit mode the one in
slot 3, are installed with limit argument `0xFFFFFFFF`; the entry holds the 20-bit limit
`0xFFFFF` and the granularity flags `32_BIT|4K_GRAN`, so that in 4 KByte units the segment
spans `(0xFFFFF + 1) × 4096 = 2^32` bytes, and its decoded base is 0. -/
theorem gdt_install_flat_segments (cfg : Config) :
    (∀ st : State X86_32.tss_t, 6 ≤ st.gdt.length →
      ∃ st', X86_32.gdt_install cfg st = some st' ∧
        ∀ i ∈ [1, 2, 3, 4], ∃ d access,
          st'.gdt[i]? = some d ∧
          d = configure_gdt_entry 32 null_entry 0 0xFFFFFFFF access
            (cfg.GDT_FLAG_32_BIT ||| cfg.GDT_FLAG_4K_GRAN) ∧
          decode_limit d = 0xFFFFF ∧ decode_base d = 0 ∧
          (decode_limit d + 1) * 4096 = 2 ^ 32 ∧
          d.granularity &&& 0xF0 = (cfg.GDT_FLAG_32_BIT ||| cfg.GDT_FLAG_4K_GRAN) &&& 0xF0) ∧
    (∀ st : State X86_64.tss_t, 7 ≤ st.gdt.length →
      ∃ st', X86_64.gdt_install cfg st = some st' ∧
        ∃ d access,
          st'.gdt[3]? = some d ∧
          d = configure_gdt_entry 64 null_entry 0 0xFFFFFFFF access
            (cfg.GDT_FLAG_32_BIT ||| cfg.GDT_FLAG_4K_GRAN) ∧
          decode_limit d = 0xFFFFF ∧ decode_base d = 0 ∧
          (decode_limit d + 1) * 4096 = 2 ^ 32 ∧
          d.granularity &&& 0xF0 = (cfg.GDT_FLAG_32_BIT ||| cfg.GDT_FLAG_4K_GRAN) &&& 0xF0) := by
  refine ⟨fun st h => ⟨_, gdt_install_eq_32 cfg st h null_entry, ?_⟩,
    fun st h => ⟨_, gdt_install_eq_64 cfg st h null_entry, ?_⟩⟩
  · have h1 : 1 < st.gdt.length := by omega
    have h2 : 2 < st.gdt.length := by omega
    have h3 : 3 < st.gdt.length := by omega
    have h4 : 4 < st.gdt.length := by omega
    intro i hi
    simp only [List.mem_cons, List.mem_singleton, List.not_mem_nil, or_false] at hi
    rcases hi with rfl | rfl | rfl | rfl
    · exact ⟨_, (cfg.GDT_FLAG_RING0 ||| cfg.GDT_FLAG_SEGMENT ||| cfg.GDT_FLAG_CODESEG
          ||| cfg.GDT_FLAG_PRESENT),
        by simp [List.getElem?_set, h1], rfl, flat_descriptor 32 (by decide) _ _⟩
    · exact ⟨_, (cfg.GDT_FLAG_RING0 ||| cfg.GDT_FLAG_SEGMENT ||| cfg.GDT_FLAG_DATASEG
          ||| cfg.GDT_FLAG_PRESENT),
        by simp [List.getElem?_set, h2], rfl, flat_descriptor 32 (by decide) _ _⟩
    · exact ⟨_, (cfg.GDT_FLAG_RING3 ||| cfg.GDT_FLAG_SEGMENT ||| cfg.GDT_FLAG_CODESEG
          ||| cfg.GDT_FLAG_PRESENT),
        by simp [List.getElem?_set, h3], rfl, flat_descriptor 32 (by decide) _ _⟩
    · exact ⟨_, (cfg.GDT_FLAG_RING3 ||| cfg.GDT_FLAG_SEGMENT ||| cfg.GDT_FLAG_DATASEG
          ||| cfg.GDT_FLAG_PRESENT),
        by simp [List.getElem?_set, h4], rfl, flat_descriptor 32 (by decide) _ _⟩
  · have h3 : 3 < st.gdt.length := by omega
    exact ⟨_, (cfg.GDT_FLAG_RING3 ||| cfg.GDT_FLAG_SEGMENT ||| cfg.GDT_FLAG_CODESEG
          ||| cfg.GDT_FLAG_PRESENT),
      by simp [List.getElem?_set, h3], rfl, flat_descriptor 64 (by decide) _ _⟩

/-- C17 witness: at the sample configuration every flat slot holds limit field `0xFFFF`
with granularity byte `0xCF`. -/
theorem gdt_install_flat_segments_witness :
    (6 ≤ sample_state_32.gdt.length ∧
      ∃ st', X86_32.gdt_install sample_config sample_state_32 = some st' ∧
        ∀ i ∈ [1, 2, 3, 4], ∃ d access,
          st'.gdt[i]? = some d ∧
          d = ⟨0xFFFF, 0, 0, access % 2 ^ 8, 0xCF, 0⟩ ∧
          decode_limit d = 0xFFFFF ∧ decode_base d = 0 ∧
          (decode_limit d + 1) * 4096 = 2 ^ 32 ∧
          d.granularity &&& 0xF0 = 0xC0) ∧
    (7 ≤ sample_state_64.gdt.length ∧
      ∃ st', X86_64.gdt_install sample_config sample_state_64 = some st' ∧
        ∃ d access,
          st'.gdt[3]? = some d ∧
          d = ⟨0xFFFF, 0, 0, access % 2 ^ 8, 0xCF, 0⟩ ∧
          decode_limit d = 0xFFFFF ∧ decode_base d = 0 ∧
          (decode_limit d + 1) * 4096 = 2 ^ 32 ∧
          d.granularity &&& 0xF0 = 0xC0) :=
  ⟨⟨by decide, (gdt_install_flat_segments sample_config).1 sample_state_32 (by decide)⟩,
   ⟨by decide, (gdt_install_flat_segments sample_config).2 sample_state_64 (by decide)⟩⟩

/-! ## Reset of the Task State Block -/

theorem wsub_mod_int (w a c : Nat) :
    ((wsub w (a % 2 ^ w) c : Nat) : Int) = ((a : Int) - c) % 2 ^ w := by
  have hw : wadd w (a % 2 ^ w) 0 = a % 2 ^ w := by
    unfold wadd; rw [Nat.add_zero, Nat.mod_mod]
  have h := wsub_wadd_int w a 0 c
  rw [hw] at h
  rw [h]
  simp only [Nat.cast_zero, add_zero]

/-- C18: `gdt_install` resets the Task State Block whatever it held before.  Afterwards the
privilege-0 stack pointer (`esp0` / `rsp0`) is `&boot_stack − 16` in machine arithmetic, in
32-bit mode `eflags = 0x1202`, and every field the installer does not assign is zero; the
installed state is the same whatever the Task State Block held, in particular after a
previous `set_kernel_stack`. -/
theorem gdt_install_resets_tss (cfg : Config) :
    (∀ st : State X86_32.tss_t, 6 ≤ st.gdt.length →
      ∃ st', X86_32.gdt_install cfg st = some st' ∧
        (st'.task_state_segment.esp0 : Int) = ((cfg.boot_stack_addr : Int) - 16) % 2 ^ 32 ∧
        st'.task_state_segment.eflags = 0x1202 ∧
        st'.task_state_segment.other.length = st.task_state_segment.other.length ∧
        (∀ x ∈ st'.task_state_segment.other, x = 0) ∧
        X86_32.gdt_install cfg (X86_32.set_kernel_stack cfg st) = some st' ∧
        (∀ t : X86_32.tss_t, t.other.length = st.task_state_segment.other.length →
          X86_32.gdt_install cfg { st with task_state_segment := t } = some st')) ∧
    (∀ st : State X86_64.tss_t, 7 ≤ st.gdt.length →
      ∃ st', X86_64.gdt_install cfg st = some st' ∧
        (st'.task_state_segment.rsp0 : Int) = ((cfg.boot_stack_addr : Int) - 16) % 2 ^ 64 ∧
        st'.task_state_segment.other.length = st.task_state_segment.other.length ∧
        (∀ x ∈ st'.task_state_segment.other, x = 0) ∧
        X86_64.gdt_install cfg (X86_64.set_kernel_stack cfg st) = some st' ∧
        (∀ t : X86_64.tss_t, t.other.length = st.task_state_segment.other.length →
          X86_64.gdt_install cfg { st with task_state_segment := t } = some st')) := by
  refine ⟨fun st h => ⟨_, gdt_install_eq_32 cfg st h null_entry, ?_, rfl, ?_, ?_, ?_, ?_⟩,
    fun st h => ⟨_, gdt_install_eq_64 cfg st h null_entry, ?_, ?_, ?_, ?_, ?_⟩⟩
  · exact wsub_mod_int 32 _ 16
  · exact List.length_replicate _ _
  · intro x hx
    exact List.eq_of_mem_replicate hx
  · exact gdt_install_eq_32 cfg (X86_32.set_kernel_stack cfg st) h null_entry
  · intro t ht
    rw [gdt_install_eq_32 cfg { st with task_state_segment := t } h null_entry]
    simp only [ht]
  · exact wsub_mod_int 64 _ 16
  · exact List.length_replicate _ _
  · intro x hx
    exact List.eq_of_mem_replicate hx
  · exact gdt_install_eq_64 cfg (X86_64.set_kernel_stack cfg st) h null_entry
  · intro t ht
    rw [gdt_install_eq_64 cfg { st with task_state_segment := t } h null_entry]
    simp only [ht]

/-- C18 witness: installing the sample configuration (`&boot_stack = 0x107000`) over the
stale sample states gives `esp0 = rsp0 = 0x106FF0`. -/
theorem gdt_install_resets_tss_witness :
    (6 ≤ sample_state_32.gdt.length ∧
      ∃ st', X86_32.gdt_install sample_config sample_state_32 = some st' ∧
        (st'.task_state_segment.esp0 : Int) = ((0x107000 : Nat) : Int) - 16 ∧
        st'.task_state_segment.eflags = 0x1202 ∧
        st'.task_state_segment.other = [0, 0, 0] ∧
        X86_32.gdt_install sample_config
          (X86_32.set_kernel_stack sample_config sample_state_32) = some st') ∧
    (7 ≤ sample_state_64.gdt.length ∧
      ∃ st', X86_64.gdt_install sample_config sample_state_64 = some st' ∧
        (st'.task_state_segment.rsp0 : Int) = ((0x107000 : Nat) : Int) - 16 ∧
        st'.task_state_segment.other = [0, 0, 0] ∧
        X86_64.gdt_install sample_config
          (X86_64.set_kernel_stack sample_config sample_state_64) = some st') := by
  obtain ⟨s, h1, h2, h3, h4, h5, h6, _⟩ :=
    (gdt_install_resets_tss sample_config).1 sample_state_32 (by decide)
  obtain ⟨s', k1, k2, k4, k5, k6, _⟩ :=
    (gdt_install_resets_tss sample_config).2 sample_state_64 (by decide)
  refine ⟨⟨by decide, s, h1, ?_, h3, ?_, h6⟩, ⟨by decide, s', k1, ?_, ?_, k6⟩⟩
  · rw [h2]; decide
  · exact List.eq_replicate_of_mem h5 |>.trans (by rw [h4]; rfl)
  · rw [k2]; decide
  · exact List.eq_replicate_of_mem k5 |>.trans (by rw [k4]; rfl)

/-! ## Slots written by the installer -/

theorem gdt_set_gate_some {tss : Type} {w : Nat} {st st' : State tss} {num : Int}
    {base limit access gran : Nat}
    (h : gdt_set_gate w st num base limit access gran = some st') :
    num < st.gdt.length ∧ st'.gdt.length = st.gdt.length := by
  unfold gdt_set_gate at h
  split at h
  · rename_i hc
    simp only [Option.some.injEq] at h
    subst h
    exact ⟨hc.2, List.length_set _ _ _⟩
  · exact absurd h (by simp)

theorem gdt_install_some_length_32 (cfg : Config) (st st' : State X86_32.tss_t)
    (h : X86_32.gdt_install cfg st = some st') : 6 ≤ st.gdt.length := by
  rw [gdt_install_staged_32] at h
  simp only [Option.bind_eq_some] at h
  obtain ⟨s1, h1, s2, h2, s3, h3, s4, h4, s5, h5, s6, h6, _⟩ := h
  have e1 := (gdt_set_gate_some h1).2
  have e2 := (gdt_set_gate_some h2).2
  have e3 := (gdt_set_gate_some h3).2
  have e4 := (gdt_set_gate_some h4).2
  have e5 := (gdt_set_gate_some h5).2
  have l6 := (gdt_set_gate_some h6).1
  simp only [] at e1 l6
  omega

theorem gdt_install_some_length_64 (cfg : Config) (st st' : State X86_64.tss_t)
    (h : X86_64.gdt_install cfg st = some st') : 7 ≤ st.gdt.length := by
  rw [gdt_install_staged_64] at h
  simp only [Option.bind_eq_some] at h
  obtain ⟨s1, h1, s2, h2, s3, h3, s4, h4, s5, h5, s6, h6, s7, h7, _⟩ := h
  have e1 := (gdt_set_gate_some h1).2
  have e2 := (gdt_set_gate_some h2).2
  have e3 := (gdt_set_gate_some h3).2
  have e4 := (gdt_set_gate_some h4).2
  have e5 := (gdt_set_gate_some h5).2
  have e6 := (gdt_set_gate_some h6).2
  have l7 := (gdt_set_gate_some h7).1
  simp only [] at e1 l7
  omega

/-- C19: `gdt_install` writes the table slots 0 to 5 (32-bit mode) respectively 0 to 6
(64-bit mode), in this order, and no other.  The installed table is the prior table with
slot 0 overwritten by the null descriptor, then slots 1, 2, 3, 4 (and 5 in 64-bit mode) by
the segment descriptors and the last slot by the descriptor of the Task State Block, each
being what `configure_gdt_entry` produces for the arguments of the call; the table keeps
its length and every slot with a larger index is unchanged.  For a table of `GDT_ENTRIES`
entries all writes are in bounds — the installer runs to completion — exactly when
`GDT_ENTRIES` is at least 6 respectively 7. -/
theorem gdt_install_written_slots (cfg : Config) (e : gdt_entry_t) :
    (∀ st : State X86_32.tss_t, st.gdt.length = cfg.GDT_ENTRIES →
      ((X86_32.gdt_install cfg st).isSome ↔ 6 ≤ cfg.GDT_ENTRIES) ∧
      (6 ≤ cfg.GDT_ENTRIES →
        ∃ st', X86_32.gdt_install cfg st = some st' ∧
          st'.gdt = (((((st.gdt.set 0 (configure_gdt_entry 32 e 0 0 0 0)).set 1
            (configure_gdt_entry 32 e 0 0xFFFFFFFF
              (cfg.GDT_FLAG_RING0 ||| cfg.GDT_FLAG_SEGMENT ||| cfg.GDT_FLAG_CODESEG
                ||| cfg.GDT_FLAG_PRESENT)
              (cfg.GDT_FLAG_32_BIT ||| cfg.GDT_FLAG_4K_GRAN))).set 2
            (configure_gdt_entry 32 e 0 0xFFFFFFFF
              (cfg.GDT_FLAG_RING0 ||| cfg.GDT_FLAG_SEGMENT ||| cfg.GDT_FLAG_DATASEG
                ||| cfg.GDT_FLAG_PRESENT)
              (cfg.GDT_FLAG_32_BIT ||| cfg.GDT_FLAG_4K_GRAN))).set 3
            (configure_gdt_entry 32 e 0 0xFFFFFFFF
              (cfg.GDT_FLAG_RING3 ||| cfg.GDT_FLAG_SEGMENT ||| cfg.GDT_FLAG_CODESEG
                ||| cfg.GDT_FLAG_PRESENT)
              (cfg.GDT_FLAG_32_BIT ||| cfg.GDT_FLAG_4K_GRAN))).set 4
            (configure_gdt_entry 32 e 0 0xFFFFFFFF
              (cfg.GDT_FLAG_RING3 ||| cfg.GDT_FLAG_SEGMENT ||| cfg.GDT_FLAG_DATASEG
                ||| cfg.GDT_FLAG_PRESENT)
              (cfg.GDT_FLAG_32_BIT ||| cfg.GDT_FLAG_4K_GRAN))).set 5
            (configure_gdt_entry 32 e (cfg.task_state_segment_addr % 2 ^ 32)
              (wsub 32 cfg.sizeof_tss_t 1)
              (cfg.GDT_FLAG_PRESENT ||| cfg.GDT_FLAG_TSS ||| cfg.GDT_FLAG_RING0)
              (cfg.GDT_FLAG_32_BIT ||| cfg.GDT_FLAG_4K_GRAN)) ∧
          st'.gdt.length = st.gdt.length ∧
          ∀ i : Nat, 6 ≤ i → st'.gdt[i]? = st.gdt[i]?)) ∧
    (∀ st : State X86_64.tss_t, st.gdt.length = cfg.GDT_ENTRIES →
      ((X86_64.gdt_install cfg st).isSome ↔ 7 ≤ cfg.GDT_ENTRIES) ∧
      (7 ≤ cfg.GDT_ENTRIES →
        ∃ st', X86_64.gdt_install cfg st = some st' ∧
          st'.gdt = ((((((st.gdt.set 0 (configure_gdt_entry 64 e 0 0 0 0)).set 1
            (configure_gdt_entry 64 e 0 0
              (cfg.GDT_FLAG_RING0 ||| cfg.GDT_FLAG_SEGMENT ||| cfg.GDT_FLAG_CODESEG
                ||| cfg.GDT_FLAG_PRESENT)
              cfg.GDT_FLAG_64_BIT)).set 2
            (configure_gdt_entry 64 e 0 0
              (cfg.GDT_FLAG_RING0 ||| cfg.GDT_FLAG_SEGMENT ||| cfg.GDT_FLAG_DATASEG
                ||| cfg.GDT_FLAG_PRESENT)
              0)).set 3
            (configure_gdt_entry 64 e 0 0xFFFFFFFF
              (cfg.GDT_FLAG_RING3 ||| cfg.GDT_FLAG_SEGMENT ||| cfg.GDT_FLAG_CODESEG
                ||| cfg.GDT_FLAG_PRESENT)
              (cfg.GDT_FLAG_32_BIT ||| cfg.GDT_FLAG_4K_GRAN))).set 4
            (configure_gdt_entry 64 e 0 0
              (cfg.GDT_FLAG_RING3 ||| cfg.GDT_FLAG_SEGMENT ||| cfg.GDT_FLAG_DATASEG
                ||| cfg.GDT_FLAG_PRESENT)
              0)).set 5
            (configure_gdt_entry 64 e 0 0
              (cfg.GDT_FLAG_RING3 ||| cfg.GDT_FLAG_SEGMENT ||| cfg.GDT_FLAG_CODESEG
                ||| cfg.GDT_FLAG_PRESENT)
              cfg.GDT_FLAG_64_BIT)).set 6
            (configure_gdt_entry 64 e (cfg.task_state_segment_addr % 2 ^ 64)
              (wsub 64 cfg.sizeof_tss_t 1)
              (cfg.GDT_FLAG_PRESENT ||| cfg.GDT_FLAG_TSS ||| cfg.GDT_FLAG_RING0)
              0) ∧
          st'.gdt.length = st.gdt.length ∧
          ∀ i : Nat, 7 ≤ i → st'.gdt[i]? = st.gdt[i]?)) := by
  refine ⟨fun st hlen => ⟨⟨fun hs => ?_, fun h6 => ?_⟩, fun h6 => ?_⟩,
    fun st hlen => ⟨⟨fun hs => ?_, fun h7 => ?_⟩, fun h7 => ?_⟩⟩
  · obtain ⟨st', h⟩ := Option.isSome_iff_exists.1 hs
    exact hlen ▸ gdt_install_some_length_32 cfg st st' h
  · rw [gdt_install_eq_32 cfg st (hlen ▸ h6) null_entry]; rfl
  · refine ⟨_, gdt_install_eq_32 cfg st (hlen ▸ h6) e, rfl, ?_, ?_⟩
    · simp only [List.length_set]
    · intro i hi
      simp only [List.getElem?_set, List.length_set]
      split_ifs <;> first | rfl | omega
  · obtain ⟨st', h⟩ := Option.isSome_iff_exists.1 hs
    exact hlen ▸ gdt_install_some_length_64 cfg st st' h
  · rw [gdt_install_eq_64 cfg st (hlen ▸ h7) null_entry]; rfl
  · refine ⟨_, gdt_install_eq_64 cfg st (hlen ▸ h7) e, rfl, ?_, ?_⟩
    · simp only [List.length_set]
    · intro i hi
      simp only [List.getElem?_set, List.length_set]
      split_ifs <;> first | rfl | omega

/-- C19 witness: the sample tables have eight stale entries; after installation slots 0 to 5
(32-bit) respectively 0 to 6 (64-bit) hold the installed descriptors and the remaining
slots keep their stale content. -/
theorem gdt_install_written_slots_witness :
    (sample_state_32.gdt.length = sample_config.GDT_ENTRIES ∧ 6 ≤ sample_config.GDT_ENTRIES ∧
      ∃ st', X86_32.gdt_install sample_config sample_state_32 = some st' ∧
        st'.gdt =
          [⟨0, 0, 0, 0, 0, 0⟩, ⟨0xFFFF, 0, 0, 0x9A, 0xCF, 0⟩, ⟨0xFFFF, 0, 0, 0x92, 0xCF, 0⟩,
           ⟨0xFFFF, 0, 0, 0xFA, 0xCF, 0⟩, ⟨0xFFFF, 0, 0, 0xF2, 0xCF, 0⟩,
           ⟨0x67, 0x8000, 0x10, 0x89, 0xC0, 0⟩, stale_entry, stale_entry] ∧
        st'.gdt.length = sample_state_32.gdt.length ∧
        ∀ i : Nat, 6 ≤ i → st'.gdt[i]? = sample_state_32.gdt[i]?) ∧
    (sample_state_64.gdt.length = sample_config.GDT_ENTRIES ∧ 7 ≤ sample_config.GDT_ENTRIES ∧
      ∃ st', X86_64.gdt_install sample_config sample_state_64 = some st' ∧
        st'.gdt =
          [⟨0, 0, 0, 0, 0, 0⟩, ⟨0, 0, 0, 0x9A, 0x20, 0⟩, ⟨0, 0, 0, 0x92, 0, 0⟩,
           ⟨0xFFFF, 0, 0, 0xFA, 0xCF, 0⟩, ⟨0, 0, 0, 0xF2, 0, 0⟩, ⟨0, 0, 0, 0xFA, 0x20, 0⟩,
           ⟨0x67, 0x8000, 0x10, 0x89, 0, 0⟩, stale_entry] ∧
        st'.gdt.length = sample_state_64.gdt.length ∧
        ∀ i : Nat, 7 ≤ i → st'.gdt[i]? = sample_state_64.gdt[i]?) :=
  ⟨⟨by decide, by decide,
     ((gdt_install_written_slots sample_config null_entry).1 sample_state_32 (by decide)).2
       (by decide)⟩,
   ⟨by decide, by decide,
     ((gdt_install_written_slots sample_config null_entry).2 sample_state_64 (by decide)).2
       (by decide)⟩⟩

end EduOS
